import Mathlib

/-!
Verification development for the chessmaster backend.

This file shallowly embeds the two core pieces of the backend:
  * `src/onlinePlayServer.js` — the lobby/session registry and its
    per-message handlers (hello/create/join/move/resign/leave/pong,
    disconnect handling, the disconnect grace timer callback and the
    idle-cleanup sweep);
  * `src/stockfishService.js` — the engine-protocol adapter
    (`evaluationToCentipawns`, `classifyDelta`, the streamed info-line
    parser, `buildResult`, the `getBestMove` session state machine and
    the `analyzeGame` replay loop).

External collaborators (the chess.js rules engine and the engine
subprocess) are modelled as explicit interfaces/oracles: the rules
engine as a record of the operations the server invokes on it, the
engine subprocess as the list of output lines it produces.  JavaScript
`Map`s are modelled as association lists with JS `Map.set`/`delete`
semantics; timestamps are milliseconds as `Nat`; JS string-truthiness
of payload fields is modelled explicitly.
-/

namespace ChessBackend

/-! ### Association-list maps (JS `Map` semantics) -/

/-- Lookup of a key in an association list (JS `Map.get`). -/
def mapGet {κ α : Type} [DecidableEq κ] (m : List (κ × α)) (k : κ) : Option α :=
  match m with
  | [] => none
  | (k', v) :: rest => if k' = k then some v else mapGet rest k

/-- JS `Map.set`: replace the value at an existing key in place, else append. -/
def mapSet {κ α : Type} [DecidableEq κ] (m : List (κ × α)) (k : κ) (v : α) :
    List (κ × α) :=
  match m with
  | [] => [(k, v)]
  | (k', v') :: rest =>
    if k' = k then (k, v) :: rest else (k', v') :: mapSet rest k v

/-- JS `Map.delete`. -/
def mapDel {κ α : Type} [DecidableEq κ] (m : List (κ × α)) (k : κ) :
    List (κ × α) :=
  match m with
  | [] => []
  | (k', v') :: rest => if k' = k then rest else (k', v') :: mapDel rest k

/-- Update the value at a key, if present (JS mutation through an object
reference that the map also holds). -/
def mapUpd {κ α : Type} [DecidableEq κ] (m : List (κ × α)) (k : κ) (f : α → α) :
    List (κ × α) :=
  match mapGet m k with
  | none => m
  | some v => mapSet m k (f v)

/-- JS string truthiness of an optional string field: `undefined`, `null`
and the empty string are falsy. -/
def truthy (s : Option String) : Bool :=
  match s with
  | none => false
  | some str => !str.isEmpty

/-! ### Colors -/

/-- A chess side, the JS strings 'white'/'black'. -/
inductive Color : Type
  | white
  | black
deriving DecidableEq, Repr

/-- Source `getOpponentColor`: `color === 'white' ? 'black' : 'white'`.
The argument is the nullable JS `color` field, so `null` maps to white. -/
def getOpponentColor (c : Option Color) : Color :=
  match c with
  | some Color.white => Color.black
  | _ => Color.white

/-! ### The rules-engine capability (chess.js, an external collaborator)

The server calls exactly these operations on a `Chess` instance.  A
position is an abstract type `Pos`; `move` returns the new position or
`none` when chess.js rejects (returns null / throws). -/

structure RulesEngine (Pos : Type) where
  start : Pos
  fen : Pos → String
  turn : Pos → Color
  move : Pos → String → String → Option String → Option Pos
  isCheckmate : Pos → Bool
  isStalemate : Pos → Bool
  isThreefoldRepetition : Pos → Bool
  isInsufficientMaterial : Pos → Bool
  isDraw : Pos → Bool

/-! ### stockfishService.js — evaluation conversion and severity -/

/-- A parsed `score (cp|mate) <v>` evaluation: `etype` is the captured
"cp" or "mate" string, `value` the captured integer. -/
structure Evaluation where
  etype : String
  value : Int
deriving DecidableEq, Repr

/-- Source `evaluationToCentipawns`.  The JS takes a nullable object; the
integer field is always finite here, mirroring `Number.parseInt` output
on a matched `-?\d+`. -/
def evaluationToCentipawns (evaluation : Option Evaluation) : Option Int :=
  match evaluation with
  | none => none
  | some e =>
    if e.etype = "cp" then some e.value
    else if e.etype = "mate" then
      if e.value = 0 then none
      else
        let sign : Int := if e.value > 0 then 1 else -1
        let distance : Nat := min e.value.natAbs 100
        some (sign * (100000 - (distance : Int) * 1000))
    else none

/-! ### onlinePlayServer.js — data model

`PLAYERS` and `LOBBIES` are the two registry maps.  A JS player object
is referenced both from the map and from lobby seats; the model keys
lobby seats by `playerId` and routes every mutation through the map,
which is observationally equivalent for single-threaded dispatch.
Timer handles are modelled as a pending flag (`clearTimeout` =
unsetting it; a cancelled timer never fires). -/

structure Player where
  playerId : String
  ws : Option Nat
  userId : Option String
  username : Option String
  createdAt : Nat
  lastPongAt : Nat
  awaitingPong : Bool
  gameId : Option String
  color : Option Color
  disconnectTimer : Bool
deriving DecidableEq, Repr

/-- One applied move, as pushed onto `lobby.moves`. -/
structure MoveRecord where
  playerId : String
  uci : String
  fenAfter : String
  timestamp : Nat
deriving DecidableEq, Repr

/-- A lobby record.  In the source `finalizeGame` stamps
result/reason/completedAt on the object right before deleting it from
the registry, so those stamps are never observable through the map;
`result`/`resultReason` stay `none` for registered lobbies. -/
structure Lobby (Pos : Type) where
  gameId : String
  createdAt : Nat
  host : Option String
  guest : Option String
  chess : Pos
  status : String
  moves : List MoveRecord
  result : Option String := none
  resultReason : Option String := none
deriving DecidableEq

/-- Server→client wire messages (the JSON payloads `safeSend` serializes). -/
inductive Msg : Type
  | error (code msg : String)
  | created (gameId : String) (color : Color)
  | hello (playerId : String)
  | resume (gameId fen : String) (turn : Color) (color : Option Color)
      (moves : List MoveRecord) (result reason : Option String)
  | start (gameId fen : String) (turn : Color) (whiteId blackId : String)
      (whiteName blackName : Option String) (color : Option Color)
  | move (gameId playerId uci fen : String) (turn : Color)
  | gameOver (gameId result reason : String)
  | left (gameId : Option String)
  | opponentDisconnect (gameId playerId : String)
  | ping
deriving DecidableEq, Repr

/-- Destination of a sent message: the socket the request arrived on
(`safeSend(ws, …)`) or a player's own socket (`sendToPlayer`).  Whether
the socket is open only affects delivery, not state, so sends are
recorded as intents. -/
inductive Dest : Type
  | caller
  | player (pid : String)
deriving DecidableEq, Repr

/-- A recorded send. -/
abbrev Sent := Dest × Msg

/-- The two global registries. -/
structure ServerState (Pos : Type) where
  lobbies : List (String × Lobby Pos)
  players : List (String × Player)
deriving DecidableEq

/-- The empty registries at process start. -/
def initState (Pos : Type) : ServerState Pos := { lobbies := [], players := [] }

/-- Source `getPlayer`: `ws.__playerId` is the identification tag on the
socket (an environment input here), resolved through `PLAYERS`. -/
def getPlayer {Pos : Type} (s : ServerState Pos) (wsPid : Option String) :
    Option Player :=
  match wsPid with
  | none => none
  | some pid => mapGet s.players pid

/-- Source `getPlayerName`: `username || 'Player-' + playerId.slice(0,4).toUpperCase()`. -/
def getPlayerName (p : Player) : String :=
  match p.username with
  | some u => if u.isEmpty then "Player-" ++ (String.mk (p.playerId.data.take 4)).toUpper else u
  | none => "Player-" ++ (String.mk (p.playerId.data.take 4)).toUpper

/-- Source `broadcastToLobby`: send to each occupied seat, optionally
excluding one player id. -/
def broadcastToLobby {Pos : Type} (lobby : Lobby Pos) (m : Msg)
    (exclude : Option String) : List Sent :=
  (([lobby.host, lobby.guest].filterMap id).filter
    (fun pid => exclude ≠ some pid)).map (fun pid => (Dest.player pid, m))

/-- Thresholds taken by `classifyDelta`. -/
structure Thresholds where
  inaccuracy : Int
  mistake : Int
  blunder : Int
deriving Repr

/-- Source `classifyDelta`: highest tier whose threshold the magnitude
meets, else no flag. -/
def classifyDelta (deltaCp : Option Int) (thresholds : Thresholds) :
    Option String :=
  match deltaCp with
  | none => none
  | some d =>
    let magnitude : Int := |d|
    if magnitude ≥ thresholds.blunder then some "blunder"
    else if magnitude ≥ thresholds.mistake then some "mistake"
    else if magnitude ≥ thresholds.inaccuracy then some "inaccuracy"
    else none

/-! ### onlinePlayServer.js — handlers

Environment inputs that the handlers consume (socket identity tag,
generated uuid/lobby id, the fair coin, `Date.now()`) are passed as
explicit arguments. -/

/-- Source `createLobby`.  `generateGameId()` and the fair coin are
environment inputs `genId`/`coin`.  Note the registry insertion is a
plain `LOBBIES.set(gameId, lobby)` with no collision check. -/
def createLobby {Pos : Type} (E : RulesEngine Pos) (s : ServerState Pos)
    (host : Player) (preferredColor : Option String) (genId : String)
    (coin : Bool) (now : Nat) : ServerState Pos × List Sent :=
  let color : Color :=
    match preferredColor with
    | some "white" => Color.white
    | some "black" => Color.black
    | _ => if coin then Color.white else Color.black
  let lobby : Lobby Pos :=
    { gameId := genId, createdAt := now, host := some host.playerId,
      guest := none, chess := E.start, status := "waiting", moves := [] }
  let host2 := { host with gameId := some genId, color := some color }
  ({ lobbies := mapSet s.lobbies genId lobby,
     players := mapSet s.players host.playerId host2 },
   [(Dest.player host.playerId, Msg.created genId color)])

/-- Source `handleCreate`. -/
def handleCreate {Pos : Type} (E : RulesEngine Pos) (s : ServerState Pos)
    (wsPid : Option String) (preferredColor : Option String) (genId : String)
    (coin : Bool) (now : Nat) : ServerState Pos × List Sent :=
  match getPlayer s wsPid with
  | none => (s, [(Dest.caller, Msg.error "NOT_IDENTIFIED" "Send hello first")])
  | some player =>
    if truthy player.gameId then
      (s, [(Dest.caller, Msg.error "ALREADY_IN_GAME"
        "Leave current game before creating a new one")])
    else createLobby E s player preferredColor genId coin now

/-- Source `startGame`: no-op unless both seats are occupied; resets the
position and the move list, flips the status to active and broadcasts
the start payload (per-recipient `color` field). -/
def startGame {Pos : Type} (E : RulesEngine Pos) (s : ServerState Pos)
    (gidKey : String) (lobby : Lobby Pos) : ServerState Pos × List Sent :=
  match lobby.host, lobby.guest with
  | some hid, some gid2 =>
    let lobby2 := { lobby with status := "active", chess := E.start, moves := [] }
    let fen := E.fen lobby2.chess
    let turn := E.turn lobby2.chess
    let hostP := mapGet s.players hid
    let guestP := mapGet s.players gid2
    let hostColor := hostP.bind Player.color
    let guestColor := guestP.bind Player.color
    let whiteId := if hostColor = some Color.white then hid else gid2
    let blackId := if hostColor = some Color.black then hid else gid2
    let whiteName := if hostColor = some Color.white then hostP.map getPlayerName
      else guestP.map getPlayerName
    let blackName := if hostColor = some Color.black then hostP.map getPlayerName
      else guestP.map getPlayerName
    ({ s with lobbies := mapSet s.lobbies gidKey lobby2 },
     [(Dest.player hid, Msg.start lobby.gameId fen turn whiteId blackId
         whiteName blackName hostColor),
      (Dest.player gid2, Msg.start lobby.gameId fen turn whiteId blackId
         whiteName blackName guestColor)])
  | _, _ => (s, [])

/-- Source `attachPlayerToLobby` followed by `startGame`.  The source
reads `lobby.host.color` unconditionally; a registered waiting lobby
with an empty guest seat always has a host, so the `none` branch is
unreachable (the JS would throw there). -/
def attachPlayerToLobby {Pos : Type} (E : RulesEngine Pos) (s : ServerState Pos)
    (gidKey : String) (lobby : Lobby Pos) (player : Player) : ServerState Pos × List Sent :=
  match lobby.host with
  | none => (s, [])
  | some hid =>
    let hostColor := (mapGet s.players hid).bind Player.color
    let guestColor := getOpponentColor hostColor
    let player2 := { player with gameId := some lobby.gameId, color := some guestColor }
    let lobby2 := { lobby with guest := some player.playerId }
    let s1 : ServerState Pos :=
      { lobbies := mapSet s.lobbies gidKey lobby2,
        players := mapSet s.players player.playerId player2 }
    startGame E s1 gidKey lobby2

/-- Source `handleJoin`. -/
def handleJoin {Pos : Type} (E : RulesEngine Pos) (s : ServerState Pos)
    (wsPid : Option String) (payloadGameId : Option String) :
    ServerState Pos × List Sent :=
  match getPlayer s wsPid with
  | none => (s, [(Dest.caller, Msg.error "NOT_IDENTIFIED" "Send hello first")])
  | some player =>
    if truthy player.gameId then
      (s, [(Dest.caller, Msg.error "ALREADY_IN_GAME"
        "Leave current game before joining another")])
    else if !truthy payloadGameId then
      (s, [(Dest.caller, Msg.error "INVALID_GAME_ID"
        "gameId is required to join a lobby")])
    else
      match mapGet s.lobbies (payloadGameId.getD "") with
      | none => (s, [(Dest.caller, Msg.error "GAME_NOT_FOUND" "Lobby not found")])
      | some lobby =>
        if lobby.status ≠ "waiting" ∨ lobby.guest.isSome then
          (s, [(Dest.caller, Msg.error "LOBBY_FULL" "Lobby already has two players")])
        else attachPlayerToLobby E s (payloadGameId.getD "") lobby player

/-- Source `validateMovePayload`. -/
structure MovePayload where
  gameId : Option String
  playerId : Option String
  san : Option String
  uci : Option String
deriving DecidableEq, Repr

def validateMovePayload (p : MovePayload) : Bool :=
  truthy p.gameId && truthy p.playerId && (truthy p.san || truthy p.uci)

/-- `uci.slice(0, 2)`. -/
def uciFrom (u : String) : String := String.mk (u.data.take 2)

/-- `uci.slice(2, 4)`. -/
def uciTo (u : String) : String := String.mk ((u.data.drop 2).take 2)

/-- `uci.length > 4 ? uci[4] : undefined`. -/
def uciPromotion (u : String) : Option String :=
  if u.length > 4 then some (String.mk ((u.data.drop 4).take 1)) else none

/-- The `try { chess.move({from: uci.slice(0,2), …}) } catch { null }`
block.  When the payload carried only `san`, `uci` is `undefined` and
`uci.slice` throws inside the try, so the move is rejected without
consulting the rules engine. -/
def tryMove {Pos : Type} (E : RulesEngine Pos) (pos : Pos) (uci : Option String) :
    Option Pos :=
  match uci with
  | none => none
  | some u => E.move pos (uciFrom u) (uciTo u) (uciPromotion u)

/-- Source `determineGameOutcome`: first matching terminal condition, in
source order; `none` when the position is not terminal. -/
def determineGameOutcome {Pos : Type} (E : RulesEngine Pos) (pos : Pos)
    (moverColor : Option Color) : Option (String × String) :=
  if E.isCheckmate pos then
    some (if moverColor = some Color.white then "1-0" else "0-1", "checkmate")
  else if E.isStalemate pos then some ("1/2-1/2", "stalemate")
  else if E.isThreefoldRepetition pos then some ("1/2-1/2", "threefold")
  else if E.isInsufficientMaterial pos then some ("1/2-1/2", "insufficient_material")
  else if E.isDraw pos then some ("1/2-1/2", "draw")
  else none

/-- Source `finalizeGame`: idempotent (no-op when already completed);
broadcasts `game_over`, clears both seated players' lobby/side
references and pending disconnect timers, and removes the lobby from
the registry.  (The stamps written on the lobby object right before the
delete are unobservable and elided.) -/
def finalizeGame {Pos : Type} (s : ServerState Pos) (lobby : Lobby Pos)
    (result reason : String) : ServerState Pos × List Sent :=
  if lobby.status = "completed" then (s, [])
  else
    let outs := broadcastToLobby lobby (Msg.gameOver lobby.gameId result reason) none
    let clear := fun (pl : Player) =>
      { pl with gameId := none, color := none, disconnectTimer := false }
    let ps1 := match lobby.host with
      | none => s.players
      | some hid => mapUpd s.players hid clear
    let ps2 := match lobby.guest with
      | none => ps1
      | some gid2 => mapUpd ps1 gid2 clear
    ({ lobbies := mapDel s.lobbies lobby.gameId, players := ps2 }, outs)

/-- Source `removePlayerFromLobby` (no sends). -/
def removePlayerFromLobby {Pos : Type} (s : ServerState Pos) (player : Player) :
    ServerState Pos :=
  if !truthy player.gameId then s
  else
    let clear := fun (pl : Player) =>
      { pl with gameId := none, color := none, disconnectTimer := false }
    match mapGet s.lobbies (player.gameId.getD "") with
    | none => { s with players := mapUpd s.players player.playerId clear }
    | some lobby =>
      let lobby1 := if lobby.host = some player.playerId
        then { lobby with host := none } else lobby
      let lobby2 := if lobby1.guest = some player.playerId
        then { lobby1 with guest := none } else lobby1
      let players2 := mapUpd s.players player.playerId clear
      if lobby2.host = none ∧ lobby2.guest = none then
        { lobbies := mapDel s.lobbies lobby.gameId, players := players2 }
      else
        { lobbies := mapSet s.lobbies (player.gameId.getD "")
            { lobby2 with status := "waiting" },
          players := players2 }

/-- Source `handleMove`. -/
def handleMove {Pos : Type} (E : RulesEngine Pos) (s : ServerState Pos)
    (wsPid : Option String) (p : MovePayload) (now : Nat) :
    ServerState Pos × List Sent :=
  if !validateMovePayload p then
    (s, [(Dest.caller, Msg.error "INVALID_PAYLOAD" "Invalid move payload")])
  else
    match getPlayer s wsPid with
    | none => (s, [(Dest.caller, Msg.error "PLAYER_MISMATCH" "Player not recognized for move")])
    | some player =>
      if player.playerId ≠ p.playerId.getD "" then
        (s, [(Dest.caller, Msg.error "PLAYER_MISMATCH" "Player not recognized for move")])
      else if !truthy player.gameId then
        (s, [(Dest.caller, Msg.error "NOT_IN_GAME" "Player not seated in a game")])
      else if player.gameId ≠ p.gameId then
        (s, [(Dest.caller, Msg.error "NOT_IN_GAME" "Player not seated in this game")])
      else
        match mapGet s.lobbies (player.gameId.getD "") with
        | none => (s, [(Dest.caller, Msg.error "INVALID_LOBBY" "Game not found or not active")])
        | some lobby =>
          if lobby.status ≠ "active" then
            (s, [(Dest.caller, Msg.error "INVALID_LOBBY" "Game not found or not active")])
          else if player.color ≠ some (E.turn lobby.chess) then
            (s, [(Dest.caller, Msg.error "WRONG_TURN" "Not your turn")])
          else
            match tryMove E lobby.chess p.uci with
            | none => (s, [(Dest.caller, Msg.error "ILLEGAL_MOVE" "Illegal move")])
            | some pos2 =>
              let fenAfter := E.fen pos2
              let rec1 : MoveRecord :=
                { playerId := player.playerId, uci := p.uci.getD "",
                  fenAfter := fenAfter, timestamp := now }
              let lobby2 := { lobby with chess := pos2, moves := lobby.moves ++ [rec1] }
              let s1 : ServerState Pos :=
                { s with lobbies := mapSet s.lobbies (player.gameId.getD "") lobby2 }
              let bcast := broadcastToLobby lobby2
                (Msg.move (p.gameId.getD "") player.playerId (p.uci.getD "") fenAfter
                  (E.turn pos2)) none
              match determineGameOutcome E pos2 player.color with
              | none => (s1, bcast)
              | some rr =>
                let fin := finalizeGame s1 lobby2 rr.1 rr.2
                (fin.1, bcast ++ fin.2)

/-- Source `handleResign`. -/
def handleResign {Pos : Type} (s : ServerState Pos) (wsPid : Option String)
    (payloadGameId : Option String) : ServerState Pos × List Sent :=
  match getPlayer s wsPid with
  | none => (s, [(Dest.caller, Msg.error "NOT_IDENTIFIED" "Send hello first")])
  | some player =>
    if !truthy payloadGameId then
      (s, [(Dest.caller, Msg.error "INVALID_GAME_ID" "gameId is required")])
    else
      match mapGet s.lobbies (payloadGameId.getD "") with
      | none => (s, [(Dest.caller, Msg.error "GAME_NOT_FOUND" "Game not available")])
      | some lobby =>
        if player.gameId ≠ some lobby.gameId then
          (s, [(Dest.caller, Msg.error "NOT_IN_GAME" "Player not seated in this game")])
        else
          finalizeGame s lobby
            (if player.color = some Color.white then "0-1" else "1-0") "resign"

/-- Source `handleLeave`. -/
def handleLeave {Pos : Type} (s : ServerState Pos) (wsPid : Option String) :
    ServerState Pos × List Sent :=
  match getPlayer s wsPid with
  | none => (s, [(Dest.caller, Msg.error "NOT_IDENTIFIED" "Send hello first")])
  | some player =>
    if !truthy player.gameId then (s, [(Dest.caller, Msg.left none)])
    else
      match mapGet s.lobbies (player.gameId.getD "") with
      | none =>
        let players2 := mapUpd s.players player.playerId (fun pl => { pl with gameId := none, color := none })
        ({ s with players := players2 }, [(Dest.caller, Msg.left none)])
      | some lobby =>
        if lobby.status = "active" then
          let fin := finalizeGame s lobby
            (if player.color = some Color.white then "0-1" else "1-0") "left"
          (fin.1, fin.2 ++ [(Dest.caller, Msg.left (some lobby.gameId))])
        else
          let outs0 := broadcastToLobby lobby
            (Msg.opponentDisconnect lobby.gameId player.playerId) (some player.playerId)
          (removePlayerFromLobby s player,
           outs0 ++ [(Dest.caller, Msg.left (some lobby.gameId))])

/-- Source `handlePong`. -/
def handlePong {Pos : Type} (s : ServerState Pos) (wsPid : Option String)
    (now : Nat) : ServerState Pos × List Sent :=
  match getPlayer s wsPid with
  | none => (s, [])
  | some player =>
    let player2 := { player with lastPongAt := now, awaitingPong := false }
    ({ s with players := mapSet s.players player.playerId player2 }, [])

/-- The `hello` payload. -/
structure HelloPayload where
  playerId : Option String
  userId : Option String
  username : Option String
  gameId : Option String
deriving DecidableEq, Repr

/-- Source `handleHello`.  `connId` is the socket the message arrived
on (stored as the player's live connection); `freshId` is the `uuidv4()`
for the new-player branch. -/
def handleHello {Pos : Type} (E : RulesEngine Pos) (s : ServerState Pos)
    (connId : Nat) (p : HelloPayload) (freshId : String) (now : Nat) :
    ServerState Pos × List Sent :=
  let found := if truthy p.playerId then mapGet s.players (p.playerId.getD "") else none
  let step1 : ServerState Pos × Player :=
    match found with
    | some pl =>
      let pl1 := { pl with ws := some connId, lastPongAt := now, awaitingPong := false, disconnectTimer := false }
      let pl2 := if truthy p.username then { pl1 with username := p.username } else pl1
      let pl3 := if truthy p.userId then { pl2 with userId := p.userId } else pl2
      ({ s with players := mapSet s.players pl.playerId pl3 }, pl3)
    | none =>
      let np : Player :=
        { playerId := freshId, ws := some connId,
          userId := if truthy p.userId then p.userId else none,
          username := if truthy p.username then p.username else none,
          createdAt := now, lastPongAt := now, awaitingPong := false,
          gameId := none, color := none, disconnectTimer := false }
      ({ s with players := mapSet s.players freshId np }, np)
  let s1 := step1.1
  let player := step1.2
  let outs2 : List Sent :=
    if truthy p.gameId ∧ player.gameId = p.gameId then
      match mapGet s1.lobbies (p.gameId.getD "") with
      | some lobby =>
        [(Dest.player player.playerId,
          Msg.resume (p.gameId.getD "") (E.fen lobby.chess) (E.turn lobby.chess)
            player.color lobby.moves lobby.result lobby.resultReason)]
      | none => []
    else []
  (s1, (Dest.caller, Msg.hello player.playerId) :: outs2)

/-- Source `handleDisconnect` (the synchronous part): drops the live
connection, arms the 60s grace timer, and notifies the opponent if the
lobby is active.  The timer body is `fireDisconnectTimer`. -/
def handleDisconnect {Pos : Type} (s : ServerState Pos) (wsPid : Option String) :
    ServerState Pos × List Sent :=
  match getPlayer s wsPid with
  | none => (s, [])
  | some player =>
    let player2 := { player with ws := none, awaitingPong := false, disconnectTimer := true }
    let s1 : ServerState Pos :=
      { s with players := mapSet s.players player.playerId player2 }
    let outs :=
      if truthy player.gameId then
        match mapGet s1.lobbies (player.gameId.getD "") with
        | some lobby =>
          if lobby.status = "active" then
            broadcastToLobby lobby
              (Msg.opponentDisconnect lobby.gameId player.playerId)
              (some player.playerId)
          else []
        | none => []
      else []
    (s1, outs)

/-- The body of the 60s disconnect grace timer armed by
`handleDisconnect`.  A cancelled timer (reattachment, finalize, or
removal cleared the handle) never fires, hence the pending-flag guard;
the body itself then re-checks `player.ws` and `player.gameId` exactly
as the source closure does. -/
def fireDisconnectTimer {Pos : Type} (s : ServerState Pos) (pid : String) :
    ServerState Pos × List Sent :=
  match mapGet s.players pid with
  | none => (s, [])
  | some player =>
    if !player.disconnectTimer then (s, [])
    else if player.ws.isSome then (s, [])
    else if !truthy player.gameId then (s, [])
    else
      match mapGet s.lobbies (player.gameId.getD "") with
      | none =>
        let players2 := mapUpd s.players pid (fun pl => { pl with gameId := none, color := none })
        ({ s with players := players2 }, [])
      | some lobby =>
        if lobby.status = "active" then
          finalizeGame s lobby
            (if player.color = some Color.white then "0-1" else "1-0")
            "disconnect_timeout"
        else (removePlayerFromLobby s player, [])

/-- Source `scheduleCleanup`: evict every player that has no live
connection, no lobby, and whose `createdAt` lies more than one hour in
the past.  (Collecting ids then deleting them equals a filter.) -/
def scheduleCleanup {Pos : Type} (s : ServerState Pos) (now : Nat) :
    ServerState Pos :=
  { s with players := s.players.filter (fun kv =>
      !(kv.2.ws.isNone && !truthy kv.2.gameId &&
        decide (now - kv.2.createdAt > 3600000))) }

/-- One dispatched unit of work: an inbound message routed by
`handleMessage`, a socket close, a disconnect-timer expiry or the
periodic cleanup sweep.  Environment inputs ride on the constructor. -/
inductive Op : Type
  | hello (connId : Nat) (p : HelloPayload) (freshId : String) (now : Nat)
  | create (wsPid : Option String) (preferredColor : Option String)
      (genId : String) (coin : Bool) (now : Nat)
  | join (wsPid : Option String) (gameId : Option String)
  | move (wsPid : Option String) (p : MovePayload) (now : Nat)
  | resign (wsPid : Option String) (gameId : Option String)
  | leave (wsPid : Option String)
  | pong (wsPid : Option String) (now : Nat)
  | disconnect (wsPid : Option String)
  | timerFire (pid : String)
  | cleanup (now : Nat)

/-- The single-threaded dispatcher: each unit of work runs to completion. -/
def step {Pos : Type} (E : RulesEngine Pos) (op : Op) (s : ServerState Pos) :
    ServerState Pos × List Sent :=
  match op with
  | Op.hello connId p freshId now => handleHello E s connId p freshId now
  | Op.create wsPid preferredColor genId coin now =>
      handleCreate E s wsPid preferredColor genId coin now
  | Op.join wsPid gameId => handleJoin E s wsPid gameId
  | Op.move wsPid p now => handleMove E s wsPid p now
  | Op.resign wsPid gameId => handleResign s wsPid gameId
  | Op.leave wsPid => handleLeave s wsPid
  | Op.pong wsPid now => handlePong s wsPid now
  | Op.disconnect wsPid => handleDisconnect s wsPid
  | Op.timerFire pid => fireDisconnectTimer s pid
  | Op.cleanup now => (scheduleCleanup s now, [])

/-! ### stockfishService.js — the engine-protocol session

Engine output is line oriented; a line is modelled as its
whitespace-separated tokens (`List String`), which is exactly the
granularity the source's `\s`/`\b`-delimited regexes observe on UCI
output.  First-match regexes (`String.match`) become a scan for the
first token position where the whole pattern fits; global regexes
(`matchAll`) collect every non-overlapping occurrence. -/

/-- The digits a trailing-unanchored `(\d+)` capture takes from a token
(`Number.parseInt(m, 10)`); `none` when the token does not start with a
digit, in which case the regex engine keeps searching further right. -/
def parseLeadingNat (s : String) : Option Nat :=
  let ds := s.data.takeWhile Char.isDigit
  if ds.isEmpty then none
  else some (ds.foldl (fun acc c => acc * 10 + (c.toNat - 48)) 0)

/-- Same for a `(-?\d+)` capture. -/
def parseLeadingInt (s : String) : Option Int :=
  match s.data with
  | '-' :: rest =>
    (parseLeadingNat (String.mk rest)).map (fun n => -(n : Int))
  | _ => (parseLeadingNat s).map (fun n => (n : Int))

/-- All matches of `\b<key>\s+(\d+)` in a line (regex `matchAll`):
scan for the key token followed by a digit-initial token, consuming
matched tokens. -/
def keyNatMatches (key : String) : List String → List Nat
  | [] => []
  | [_] => []
  | t :: t2 :: rest =>
    if t = key then
      match parseLeadingNat t2 with
      | some n => n :: keyNatMatches key rest
      | none => keyNatMatches key (t2 :: rest)
    else keyNatMatches key (t2 :: rest)

/-- First match of `\b<key>\s+(\d+)` (regex `String.match`). -/
def firstKeyNat (key : String) (toks : List String) : Option Nat :=
  (keyNatMatches key toks).head?

/-- All matches of `score\s+(cp|mate)\s+(-?\d+)` in a line. -/
def scoreMatches : List String → List (String × Int)
  | [] => []
  | [_] => []
  | [_, _] => []
  | t :: t2 :: t3 :: rest =>
    if t = "score" ∧ (t2 = "cp" ∨ t2 = "mate") then
      match parseLeadingInt t3 with
      | some v => (t2, v) :: scoreMatches rest
      | none => scoreMatches (t2 :: t3 :: rest)
    else scoreMatches (t2 :: t3 :: rest)

/-- First match of `score\s+(cp|mate)\s+(-?\d+)`. -/
def firstScore (toks : List String) : Option (String × Int) :=
  (scoreMatches toks).head?

/-- Match of `\spv\s+(.+)$` at any token position of a line except the
first (the `pv` token must be preceded by in-line whitespace); the
capture, after `.trim().split(/\s+/)`, is the tokens after `pv`. -/
def pvTailAnywhere : List String → Option (List String)
  | [] => none
  | t :: rest =>
    if t = "pv" ∧ rest ≠ [] then some rest else pvTailAnywhere rest

def findPvTail (toks : List String) : Option (List String) :=
  match toks with
  | [] => none
  | _ :: rest => pvTailAnywhere rest

/-- First match of `\spv\s+(.+)$` with the `m` flag over the whole
accumulated output: on the first line the preceding whitespace must be
in-line, on every later line the preceding newline also qualifies. -/
def rawPvRest : List (List String) → Option (List String)
  | [] => none
  | l :: rest =>
    match pvTailAnywhere l with
    | some r => some r
    | none => rawPvRest rest

def rawFindPv : List (List String) → Option (List String)
  | [] => none
  | l :: rest =>
    match findPvTail l with
    | some r => some r
    | none => rawPvRest rest

/-- Character-list prefix test. -/
def charsPrefix : List Char → List Char → Bool
  | [], _ => true
  | _ :: _, [] => false
  | a :: as, b :: bs => a = b && charsPrefix as bs

/-- Character-list substring test. -/
def charsInfix (pat : List Char) : List Char → Bool
  | [] => pat.isEmpty
  | c :: rest => charsPrefix pat (c :: rest) || charsInfix pat rest

/-- `trimmed.includes(pat)` for a tokenized line (the sentinel words
never span whitespace). -/
def lineContains (toks : List String) (pat : String) : Bool :=
  toks.any (fun t => charsInfix pat.data t.data)

/-- One per-index record of the `multiPvLines` map. -/
structure PvEntry where
  depth : Option Nat
  evaluation : Option Evaluation
  pv : Option (List String)
deriving DecidableEq, Repr

/-- The streaming state `getBestMove` accumulates while in the `go`
stage: the primary-line evaluation/depth/pv and the per-index map. -/
structure StreamState where
  evaluation : Option Evaluation
  bestDepth : Option Nat
  pv : List String
  multiPvLines : List (Nat × PvEntry)
deriving DecidableEq, Repr

def StreamState.init : StreamState :=
  { evaluation := none, bestDepth := none, pv := [], multiPvLines := [] }

/-- Source `processInfoLine`: untagged lines default to index 1; index 1
additionally refreshes the primary evaluation/depth/pv. -/
def processInfoLine (st : StreamState) (toks : List String) : StreamState :=
  let idx := (firstKeyNat "multipv" toks).getD 1
  let entry := (mapGet st.multiPvLines idx).getD
    { depth := none, evaluation := none, pv := none }
  let dep := firstKeyNat "depth" toks
  let entry1 := match dep with
    | some d => { entry with depth := some d }
    | none => entry
  let bestDepth1 := match dep with
    | some d => if idx = 1 then some d else st.bestDepth
    | none => st.bestDepth
  let sc := firstScore toks
  let entry2 := match sc with
    | some s => { entry1 with evaluation := some { etype := s.1, value := s.2 } }
    | none => entry1
  let evaluation1 := match sc with
    | some s => if idx = 1 then some { etype := s.1, value := s.2 } else st.evaluation
    | none => st.evaluation
  let pvm := findPvTail toks
  let entry3 := match pvm with
    | some l => { entry2 with pv := some l }
    | none => entry2
  let pv1 := match pvm with
    | some l => if idx = 1 then l else st.pv
    | none => st.pv
  { evaluation := evaluation1, bestDepth := bestDepth1, pv := pv1,
    multiPvLines := mapSet st.multiPvLines idx entry3 }

/-- Source `parseMultiPvFromRaw`: rescan the whole raw output; only
well-formed `multipv <i>` lines with `i > 0` contribute. -/
def parseMultiPvFromRaw (raw : List (List String)) : List (Nat × PvEntry) :=
  raw.foldl (fun m toks =>
    match firstKeyNat "multipv" toks with
    | none => m
    | some idx =>
      if idx = 0 then m
      else
        let entry := (mapGet m idx).getD { depth := none, evaluation := none, pv := none }
        let entry1 := match firstKeyNat "depth" toks with
          | some d => { entry with depth := some d }
          | none => entry
        let entry2 := match firstScore toks with
          | some s => { entry1 with evaluation := some { etype := s.1, value := s.2 } }
          | none => entry1
        let entry3 := match findPvTail toks with
          | some l => { entry2 with pv := some l }
          | none => entry2
        mapSet m idx entry3) []

/-- One element of `result.lines`. -/
structure LineResult where
  index : Nat
  depth : Option Nat
  evaluation : Option Evaluation
  pv : List String
  bestMove : Option String
deriving DecidableEq, Repr

/-- The resolved value of a successful `getBestMove` call. -/
structure BestMoveResult where
  bestMove : Option String
  ponder : Option String
  evaluation : Option Evaluation
  depth : Option Nat
  pv : List String
  raw : List (List String)
  lines : List LineResult
deriving DecidableEq, Repr

/-- Ascending insertion by index (`.sort((a, b) => a[0] - b[0])`). -/
def insertByKey (kv : Nat × PvEntry) : List (Nat × PvEntry) → List (Nat × PvEntry)
  | [] => [kv]
  | h :: t => if kv.1 < h.1 then kv :: h :: t else h :: insertByKey kv t

def sortByKey (l : List (Nat × PvEntry)) : List (Nat × PvEntry) :=
  l.foldr insertByKey []

/-- The raw-output rescan back-fill of a missing primary evaluation:
`[...rawOutput.matchAll(/score…/g)].pop()` — the *last* score token. -/
def backfillEval (stEval : Option Evaluation) (raw : List (List String)) :
    Option Evaluation :=
  match stEval with
  | some e => some e
  | none =>
    match ((raw.map scoreMatches).flatten).getLast? with
    | some s => some { etype := s.1, value := s.2 }
    | none => none

/-- The raw-output rescan back-fill of a missing depth — the *last*
depth token. -/
def backfillDepth (stDepth : Option Nat) (raw : List (List String)) : Option Nat :=
  match stDepth with
  | some d => some d
  | none => ((raw.map (keyNatMatches "depth")).flatten).getLast?

/-- The raw-output rescan back-fill of an empty principal variation:
`rawOutput.match(/\spv\s+(.+)$/m)` — the *first* `pv` occurrence. -/
def backfillPv (stPv : List String) (raw : List (List String)) : List String :=
  match stPv with
  | [] => (rawFindPv raw).getD []
  | l => l

/-- Source `buildResult`: merge a full raw-output rescan into the
streamed per-index map, back-fill a missing primary
evaluation/depth/pv from the raw output (last score token, last depth
token, but the *first* `pv` occurrence — `String.match` with `/m` and
no `g`), order and truncate the per-index lines, and as a final
fallback promote line 1's data when evaluation or depth is still
missing. -/
def buildResult (st : StreamState) (raw : List (List String))
    (bestMove ponder : Option String) (clampedMultiPv : Nat) : BestMoveResult :=
  let rawLines := parseMultiPvFromRaw raw
  let merged := rawLines.foldl (fun m kv =>
    let existing := (mapGet st.multiPvLines kv.1).getD
      { depth := none, evaluation := none, pv := none }
    let mergedPv : List String := match kv.2.pv with
      | some l => if l ≠ [] then l else existing.pv.getD []
      | none => existing.pv.getD []
    mapSet m kv.1
      { depth := match kv.2.depth with | some d => some d | none => existing.depth,
        evaluation := match kv.2.evaluation with | some e => some e | none => existing.evaluation,
        pv := some mergedPv }) st.multiPvLines
  let eval1 := backfillEval st.evaluation raw
  let depth1 := backfillDepth st.bestDepth raw
  let pv1 := backfillPv st.pv raw
  let sortedLines := (sortByKey merged).map (fun kv =>
    { index := kv.1, depth := kv.2.depth, evaluation := kv.2.evaluation,
      pv := kv.2.pv.getD [], bestMove := (kv.2.pv.getD []).head? : LineResult })
  let sortedLines := sortedLines.take clampedMultiPv
  match sortedLines with
  | [] =>
    { bestMove := bestMove, ponder := ponder, evaluation := eval1,
      depth := depth1, pv := pv1, raw := raw, lines := [] }
  | top :: _ =>
    if eval1 = none ∨ depth1 = none then
      { bestMove := bestMove, ponder := ponder,
        evaluation := match eval1 with | some e => some e | none => top.evaluation,
        depth := match depth1 with | some d => some d | none => top.depth,
        pv := if pv1 = [] ∧ top.pv ≠ [] then top.pv else pv1,
        raw := raw, lines := sortedLines }
    else
      { bestMove := bestMove, ponder := ponder, evaluation := eval1,
        depth := depth1, pv := pv1, raw := raw, lines := sortedLines }

/-- Clamping of the requested line count:
`Math.min(Math.max(Number.parseInt(multiPv, 10) || 1, 1), 10)`. -/
def clampMultiPv (multiPv : Option Int) : Int :=
  let v : Int := match multiPv with
    | none => 1
    | some n => if n = 0 then 1 else n
  min (max v 1) 10

/-- The `go` stage of the session: `info ` lines feed the stream
parser, the `bestmove` sentinel resolves with `buildResult` (the
sentinel line itself is already part of the raw output), anything else
is accumulated only.  Running out of lines without a sentinel is the
timeout / premature-exit failure path (`none`). -/
def runGo (clamped : Nat) (st : StreamState) (raw : List (List String)) :
    List (List String) → Option BestMoveResult
  | [] => none
  | l :: rest =>
    let raw2 := raw ++ [l]
    match l with
    | [] => runGo clamped st raw2 rest
    | t :: tailToks =>
      if t = "info" ∧ tailToks ≠ [] then
        runGo clamped (processInfoLine st l) raw2 rest
      else if charsPrefix "bestmove".data t.data then
        some (buildResult st raw2 l[1]? l[2]? clamped)
      else runGo clamped st raw2 rest

/-- The `isready` stage: await the `readyok` sentinel. -/
def runReady (clamped : Nat) (raw : List (List String)) :
    List (List String) → Option BestMoveResult
  | [] => none
  | l :: rest =>
    let raw2 := raw ++ [l]
    if lineContains l "readyok" then runGo clamped StreamState.init raw2 rest
    else runReady clamped raw2 rest

/-- The `uci` stage: await the `uciok` sentinel. -/
def runHandshake (clamped : Nat) (raw : List (List String)) :
    List (List String) → Option BestMoveResult
  | [] => none
  | l :: rest =>
    let raw2 := raw ++ [l]
    if lineContains l "uciok" then runReady clamped raw2 rest
    else runHandshake clamped raw2 rest

/-- Source `getBestMove`, as a function of the subprocess's output
lines (the external engine's behaviour): `some` is the resolved result
of a successful call, `none` any of the failure paths (timeout,
premature exit, spawn error). -/
def getBestMoveModel (lines : List (List String)) (multiPv : Option Int) :
    Option BestMoveResult :=
  runHandshake (clampMultiPv multiPv).toNat [] lines

/-! ### stockfishService.js — the game-analysis replay loop

`analyzeGame` first parses the PGN into a verbose move list (chess.js,
external), then replays it ply by ply, calling `getBestMove` before and
after each ply.  The two engine calls per ply are the environment here:
oracles `pre`/`post` from the ply index to the awaited outcome
(`Except.error` is a rejected promise, carrying the error message). -/

/-- One entry of `chess.history({verbose: true})`. -/
structure VerboseMove where
  color : Color
  mfrom : String
  mto : String
  promotion : Option String
  san : String
deriving DecidableEq, Repr

/-- One entry of the returned `errors` list. -/
structure AnalysisErr where
  ply : Nat
  context : String
  message : String
deriving DecidableEq, Repr

/-- One entry of the returned `evaluationGraph`. -/
structure GraphEntry where
  ply : Nat
  moveNumber : Nat
  player : Color
  san : String
  uci : String
  fenBefore : String
  fenAfter : String
  depth : Option Nat
  evaluation : Option Evaluation
  scoreCp : Option Int
  scoreCpWhite : Option Int
  principalVariation : List String
deriving DecidableEq, Repr

/-- One flagged move of the returned `annotations` list. -/
structure FlaggedMove where
  ply : Nat
  moveNumber : Nat
  player : Color
  san : String
  severity : String
  deltaCp : Option Int
  bestScoreCp : Option Int
  actualScoreCp : Option Int
  recommendedMove : Option String
  recommendedLine : List String
deriving DecidableEq, Repr

/-- JS `||` on nullable strings (empty string is falsy). -/
def orFalsy (a b : Option String) : Option String :=
  match a with
  | some s => if s.isEmpty then b else some s
  | none => b

/-- Source `createUci`. -/
def createUci (mv : VerboseMove) : String :=
  mv.mfrom ++ mv.mto ++ (match mv.promotion with
    | some p => if p.isEmpty then "" else p
    | none => "")

/-- The accumulated outputs of the replay loop. -/
structure AnalysisOut where
  graph : List GraphEntry
  flags : List FlaggedMove
  errors : List AnalysisErr
deriving DecidableEq, Repr

/-- The body of `analyzeGame`'s `for` loop over `idx`, replaying from
`pos`.  A failed pre-move or post-move engine call is recorded and the
loop moves on; a rules-engine rejection of the played move is recorded
and stops the loop (`break`). -/
def analyzeLoop {Pos : Type} (E : RulesEngine Pos)
    (pre post : Nat → Except String BestMoveResult) (th : Thresholds)
    (pos : Pos) (idx : Nat) : List VerboseMove → AnalysisOut
  | [] => { graph := [], flags := [], errors := [] }
  | mv :: rest =>
    let ply := idx + 1
    let moveNumber := idx / 2 + 1
    let fenBefore := E.fen pos
    let preRes : Option BestMoveResult :=
      match pre idx with | Except.ok r => some r | Except.error _ => none
    let preErrs : List AnalysisErr :=
      match pre idx with
      | Except.ok _ => []
      | Except.error m => [{ ply := ply, context := "pre-move", message := m }]
    match E.move pos mv.mfrom mv.mto mv.promotion with
    | none =>
      let applyErr : AnalysisErr := { ply := ply, context := "apply-move", message := "Failed to apply move " ++ mv.san }
      { graph := [], flags := [], errors := preErrs ++ [applyErr] }
    | some pos2 =>
      let fenAfter := E.fen pos2
      let postRes : Option BestMoveResult :=
        match post idx with | Except.ok r => some r | Except.error _ => none
      let postErrs : List AnalysisErr :=
        match post idx with
        | Except.ok _ => []
        | Except.error m => [{ ply := ply, context := "post-move", message := m }]
      let bestEvalScore := evaluationToCentipawns (preRes.bind BestMoveResult.evaluation)
      let postEvalScore := evaluationToCentipawns (postRes.bind BestMoveResult.evaluation)
      let toMove := E.turn pos2
      let scoreWhite := match postEvalScore with
        | none => none
        | some v => some (if toMove = Color.white then v else -v)
      let playerActualScore := postEvalScore.map (fun v => -v)
      let deltaScore := match bestEvalScore, playerActualScore with
        | some b, some a => some (b - a)
        | _, _ => none
      let severity := classifyDelta deltaScore th
      let topLine := preRes.bind (fun r => r.lines.head?)
      let recommendedMove :=
        orFalsy (preRes.bind BestMoveResult.bestMove)
          (orFalsy (topLine.bind LineResult.bestMove)
            (orFalsy (topLine.bind (fun t => t.pv.head?))
              (preRes.bind (fun r => r.pv.head?))))
      let entry : GraphEntry :=
        { ply := ply, moveNumber := moveNumber, player := mv.color,
          san := mv.san, uci := createUci mv, fenBefore := fenBefore,
          fenAfter := fenAfter, depth := postRes.bind BestMoveResult.depth,
          evaluation := postRes.bind BestMoveResult.evaluation,
          scoreCp := postEvalScore, scoreCpWhite := scoreWhite,
          principalVariation := (postRes.map BestMoveResult.pv).getD [] }
      let flagsHere : List FlaggedMove :=
        match severity with
        | some sev =>
          [{ ply := ply, moveNumber := moveNumber, player := mv.color,
             san := mv.san, severity := sev, deltaCp := deltaScore,
             bestScoreCp := bestEvalScore, actualScoreCp := playerActualScore,
             recommendedMove := recommendedMove,
             recommendedLine := (topLine.map LineResult.pv).getD [] }]
        | none => []
      let restOut := analyzeLoop E pre post th pos2 (idx + 1) rest
      { graph := entry :: restOut.graph,
        flags := flagsHere ++ restOut.flags,
        errors := preErrs ++ postErrs ++ restOut.errors }

/-- `analysisLimit`: `maxPlies` capped by the game length (only a
positive finite `maxPlies` caps). -/
def analysisLimit (maxPlies : Option Nat) (total : Nat) : Nat :=
  match maxPlies with
  | some m => if m > 0 then min m total else total
  | none => total

/-- Source `analyzeGame` after PGN parsing: replay from the start
position over the first `analysisLimit` plies. -/
def analyzeGameModel {Pos : Type} (E : RulesEngine Pos)
    (pre post : Nat → Except String BestMoveResult) (th : Thresholds)
    (moves : List VerboseMove) (maxPlies : Option Nat) : AnalysisOut :=
  analyzeLoop E pre post th E.start 0 (moves.take (analysisLimit maxPlies moves.length))

/-! ### Helper lemmas about the association-list maps -/

theorem mapGet_set_self {κ α : Type} [DecidableEq κ] (m : List (κ × α)) (k : κ) (v : α) :
    mapGet (mapSet m k v) k = some v := by
  induction m with
  | nil => simp [mapGet, mapSet]
  | cons h t ih =>
    by_cases hk : h.1 = k
    · simp [mapGet, mapSet, hk]
    · simpa [mapGet, mapSet, hk] using ih

theorem mapGet_set_ne {κ α : Type} [DecidableEq κ] (m : List (κ × α)) (k k2 : κ)
    (v : α) (h : k ≠ k2) : mapGet (mapSet m k v) k2 = mapGet m k2 := by
  induction m with
  | nil => simp [mapGet, mapSet, h]
  | cons hd t ih =>
    by_cases hk : hd.1 = k
    · simp [mapGet, mapSet, hk, h]
    · simp only [mapSet, hk, if_false]
      by_cases hk2 : hd.1 = k2
      · simp [mapGet, hk2]
      · simpa [mapGet, hk2] using ih

/-- Keys of a JS `Map` are unique; the model's reachable registries keep
this shape because `mapSet` replaces in place. -/
abbrev keysUnique {κ α : Type} (m : List (κ × α)) : Prop :=
  (m.map Prod.fst).Nodup

theorem mapGet_eq_none_of_not_mem {κ α : Type} [DecidableEq κ]
    (m : List (κ × α)) (k : κ) (h : k ∉ m.map Prod.fst) : mapGet m k = none := by
  induction m with
  | nil => simp [mapGet]
  | cons hd t ih =>
    simp only [List.map_cons, List.mem_cons] at h
    push_neg at h
    have : hd.1 ≠ k := fun hh => h.1 hh.symm
    simpa [mapGet, this] using ih h.2

theorem mapGet_del_self {κ α : Type} [DecidableEq κ] (m : List (κ × α)) (k : κ)
    (h : keysUnique m) : mapGet (mapDel m k) k = none := by
  induction m with
  | nil => simp [mapGet, mapDel]
  | cons hd t ih =>
    simp only [keysUnique, List.map_cons, List.nodup_cons] at h
    by_cases hk : hd.1 = k
    · simp only [mapDel, hk, if_true]
      exact mapGet_eq_none_of_not_mem t k (hk ▸ h.1)
    · simpa [mapDel, mapGet, hk] using ih h.2

theorem keysUnique_set {κ α : Type} [DecidableEq κ] (m : List (κ × α)) (k : κ)
    (v : α) (h : keysUnique m) : keysUnique (mapSet m k v) := by
  induction m with
  | nil => simp [keysUnique, mapSet]
  | cons hd t ih =>
    simp only [keysUnique, List.map_cons, List.nodup_cons] at h
    by_cases hk : hd.1 = k
    · simp only [mapSet, hk, if_true]
      simp only [keysUnique, List.map_cons, List.nodup_cons]
      exact ⟨hk ▸ h.1, h.2⟩
    · simp only [mapSet, hk, if_false]
      simp only [keysUnique, List.map_cons, List.nodup_cons]
      constructor
      · intro hmem
        rcases List.mem_map.mp hmem with ⟨kv, hkv, hfst⟩
        have := mem_of_mem_mapSet t k v kv hkv
        rcases this with hin | hkk
        · exact h.1 (hfst ▸ List.mem_map_of_mem Prod.fst hin)
        · exact hk (hfst ▸ hkk)
      · exact ih h.2
where
  mem_of_mem_mapSet {κ α : Type} [DecidableEq κ] (m : List (κ × α)) (k : κ)
      (v : α) (kv : κ × α) (h : kv ∈ mapSet m k v) : kv ∈ m ∨ kv.1 = k := by
    induction m with
    | nil =>
      simp only [mapSet, List.mem_singleton] at h
      exact Or.inr (by rw [h])
    | cons hd t ih =>
      by_cases hk : hd.1 = k
      · simp only [mapSet, hk, if_true, List.mem_cons] at h
        rcases h with h | h
        · exact Or.inr (by rw [h])
        · exact Or.inl (List.mem_cons_of_mem hd h)
      · simp only [mapSet, hk, if_false, List.mem_cons] at h
        rcases h with h | h
        · exact Or.inl (h ▸ List.mem_cons_self hd t)
        · rcases ih h with h2 | h2
          · exact Or.inl (List.mem_cons_of_mem hd h2)
          · exact Or.inr h2

/-- Every entry of `mapSet m k v` is an old entry or carries the new value. -/
theorem mem_mapSet_cases {κ α : Type} [DecidableEq κ] (m : List (κ × α)) (k : κ)
    (v : α) (kv : κ × α) (h : kv ∈ mapSet m k v) : kv ∈ m ∨ kv.2 = v := by
  induction m with
  | nil =>
    simp only [mapSet, List.mem_singleton] at h
    exact Or.inr (by rw [h])
  | cons hd t ih =>
    by_cases hk : hd.1 = k
    · simp only [mapSet, hk, if_true, List.mem_cons] at h
      rcases h with h | h
      · exact Or.inr (by rw [h])
      · exact Or.inl (List.mem_cons_of_mem hd h)
    · simp only [mapSet, hk, if_false, List.mem_cons] at h
      rcases h with h | h
      · exact Or.inl (h ▸ List.mem_cons_self hd t)
      · rcases ih h with h2 | h2
        · exact Or.inl (List.mem_cons_of_mem hd h2)
        · exact Or.inr h2

/-- Every entry of `mapDel m k` is an old entry. -/
theorem mem_mapDel_sub {κ α : Type} [DecidableEq κ] (m : List (κ × α)) (k : κ)
    (kv : κ × α) (h : kv ∈ mapDel m k) : kv ∈ m := by
  induction m with
  | nil => simp [mapDel] at h
  | cons hd t ih =>
    by_cases hk : hd.1 = k
    · simp only [mapDel, hk, if_true] at h
      exact List.mem_cons_of_mem hd h
    · simp only [mapDel, hk, if_false, List.mem_cons] at h
      rcases h with h | h
      · exact h ▸ List.mem_cons_self hd t
      · exact List.mem_cons_of_mem hd (ih h)

/-- `mapGet` hits are entries of the list. -/
theorem mapGet_mem {κ α : Type} [DecidableEq κ] (m : List (κ × α)) (k : κ)
    (v : α) (h : mapGet m k = some v) : (k, v) ∈ m := by
  induction m with
  | nil => simp [mapGet] at h
  | cons hd t ih =>
    by_cases hk : hd.1 = k
    · simp only [mapGet, hk, if_true, Option.some.injEq] at h
      have : hd = (k, v) := by
        cases hd
        simp_all
      exact this ▸ List.mem_cons_self hd t
    · simp only [mapGet, hk, if_false] at h
      exact List.mem_cons_of_mem hd (ih h)

/-! ### Concrete fixtures for witnesses and counterexamples -/

/-- A trivial instantiation of the rules-engine capability on `Pos = Nat`:
every move is accepted and advances a ply counter; no position is
terminal. -/
def natEngine : RulesEngine Nat :=
  { start := 0
    fen := fun n => toString n
    turn := fun n => if n % 2 = 0 then Color.white else Color.black
    move := fun p _ _ _ => some (p + 1)
    isCheckmate := fun _ => false
    isStalemate := fun _ => false
    isThreefoldRepetition := fun _ => false
    isInsufficientMaterial := fun _ => false
    isDraw := fun _ => false }

/-- Like `natEngine`, but the position after one ply is checkmate. -/
def mateEngine : RulesEngine Nat :=
  { natEngine with isCheckmate := fun n => n = 1 }

/-- Like `natEngine`, but every move is rejected. -/
def rejectEngine : RulesEngine Nat :=
  { natEngine with move := fun _ _ _ _ => none }

/-- An empty `hello` payload. -/
def helloEmpty : HelloPayload :=
  { playerId := none, userId := none, username := none, gameId := none }

/-- Fixture: players AA and BB identified, AA created lobby G1 as white,
BB joined; the lobby is active. -/
def fixActive : ServerState Nat :=
  (handleJoin natEngine
    (handleCreate natEngine
      (handleHello natEngine
        (handleHello natEngine (initState Nat) 1 helloEmpty "AA" 0).1
        2 helloEmpty "BB" 0).1
      (some "AA") (some "white") "G1" true 1).1
    (some "BB") (some "G1")).1

/-- The lobby value registered under G1 in `fixActive`. -/
def fixLobby : Lobby Nat :=
  { gameId := "G1", createdAt := 1, host := some "AA", guest := some "BB",
    chess := 0, status := "active", moves := [] }

/-- Player BB as seated in `fixActive` after its socket closed. -/
def fixBBDisc : Player :=
  { playerId := "BB", ws := none, userId := none, username := none,
    createdAt := 0, lastPongAt := 0, awaitingPong := false,
    gameId := some "G1", color := some Color.black, disconnectTimer := true }

/-- Fixture: `fixActive` after BB's socket closed (grace timer armed). -/
def fixDiscBB : ServerState Nat := (handleDisconnect fixActive (some "BB")).1

/-- A well-formed move payload from AA in G1. -/
def movePayloadAA : MovePayload :=
  { gameId := some "G1", playerId := some "AA", san := none, uci := some "e2e4" }

/-! ### Claim C3 — mate-score conversion dominance -/

/-- C3 counterexample: the claim quantifies over *every* centipawn
evaluation of the same sign, but a centipawn value of 99000 converts to
exactly the same score as mate-in-1 (sign·(100000 − 1·1000) = 99000),
so the mate conversion is not strictly more extreme in magnitude. -/
theorem claim_C3_counterexample :
    evaluationToCentipawns (some { etype := "mate", value := 1 }) = some 99000 ∧
    evaluationToCentipawns (some { etype := "cp", value := 99000 }) = some 99000 ∧
    ¬ (99000 : Int).natAbs < (99000 : Int).natAbs := by
  refine ⟨by decide, by decide, by decide⟩

/-- C3 (amended): for mate distances of magnitude 1..99 the converted
score `sign(N)·(100000 − min(|N|,100)·1000)` is strictly more extreme
in magnitude than the conversion of any same-sign centipawn evaluation
of magnitude below 1000 (the conversion's guaranteed dominance margin),
and for the mating side a mate-in-1 (99000) converts strictly more
extreme than a mate-in-5 (95000). -/
theorem claim_C3_mate_dominates :
    (∀ n cp : Int, 1 ≤ n.natAbs → n.natAbs ≤ 99 → cp.natAbs < 1000 →
      (0 < n ↔ 0 < cp) →
      ∀ m c : Int,
        evaluationToCentipawns (some { etype := "mate", value := n }) = some m →
        evaluationToCentipawns (some { etype := "cp", value := cp }) = some c →
        c.natAbs < m.natAbs) ∧
    evaluationToCentipawns (some { etype := "mate", value := 1 }) = some 99000 ∧
    evaluationToCentipawns (some { etype := "mate", value := 5 }) = some 95000 ∧
    (95000 : Int).natAbs < (99000 : Int).natAbs := by
  refine ⟨?_, by decide, by decide, by decide⟩
  intro n cp h1 h99 hcp hsign m c hm hc
  have hn0 : n ≠ 0 := by
    intro h
    rw [h] at h1
    simp at h1
  simp only [evaluationToCentipawns] at hm hc
  rw [if_pos trivial, Option.some.injEq] at hc
  rw [if_neg (by decide), if_pos trivial, if_neg hn0] at hm
  simp only [Option.some.injEq] at hm
  have hmin : min n.natAbs 100 = n.natAbs := by omega
  rw [hmin] at hm
  by_cases hpos : n > 0
  · rw [if_pos hpos, one_mul] at hm
    omega
  · rw [if_neg hpos, neg_one_mul] at hm
    omega

/-- C3 witness: instantiation of the dominance statement at mate-in-3
versus +400 centipawns. -/
theorem claim_C3_witness :
    (3 : Int).natAbs ≤ 99 ∧ (400 : Int).natAbs < 1000 ∧
    (400 : Int).natAbs < (97000 : Int).natAbs := by
  refine ⟨by decide, by decide, ?_⟩
  exact claim_C3_mate_dominates.1 3 400 (by decide) (by decide) (by decide)
    (by constructor <;> intro <;> decide) 97000 400 (by decide) (by decide)

/-! ### Claim C9 — idle-cleanup eviction criterion -/

/-- C9 counterexample: participant P1, created at t = 0, identified and
then disconnected; when the sweep runs at t = 3600002 the record is
evicted even though the disconnection may have happened only
milliseconds earlier — the code compares `now − createdAt` (age since
creation) and records no disconnection time at all, contradicting the
claim that eviction requires the connectionless, lobby-less condition
itself to have lasted longer than the retention window. -/
theorem claim_C9_counterexample :
    (mapGet (handleDisconnect
        (handleHello natEngine (initState Nat) 1 helloEmpty "P1" 0).1
        (some "P1")).1.players "P1").isSome ∧
    (scheduleCleanup (handleDisconnect
        (handleHello natEngine (initState Nat) 1 helloEmpty "P1" 0).1
        (some "P1")).1 3600002).players = [] := by
  refine ⟨by decide, by decide⟩

/-- C9 (amended): the sweep destroys a participant record exactly when
the participant holds no connection and no lobby *and its creation time
lies more than one hour in the past* — the age since creation, not the
duration of the connectionless condition, is what is compared. -/
theorem claim_C9_cleanup_exact {Pos : Type} (s : ServerState Pos) (now : Nat)
    (kv : String × Player) :
    kv ∈ (scheduleCleanup s now).players ↔
      kv ∈ s.players ∧
        ¬(kv.2.ws = none ∧ truthy kv.2.gameId = false ∧
          3600000 < now - kv.2.createdAt) := by
  have key : ∀ (p : Player),
      ((!(p.ws.isNone && !truthy p.gameId &&
          decide (now - p.createdAt > 3600000))) = true) ↔
        ¬(p.ws = none ∧ truthy p.gameId = false ∧
          3600000 < now - p.createdAt) := by
    intro p
    rcases hw : p.ws with _ | w <;> cases hg : truthy p.gameId <;> simp [hw, hg]
  simp only [scheduleCleanup, List.mem_filter]
  rw [key kv.2]

/-! ### Claim C7 — lobby-id collision handling -/

/-- C7 counterexample: with lobby G1 (host AA) registered, CC identifies
and creates a lobby while the id generator yields the colliding id G1;
`createLobby` performs no registry check and `LOBBIES.set` replaces the
existing entry, so AA's lobby is overwritten. -/
theorem claim_C7_counterexample :
    fixActive.lobbies.map (fun kv => (kv.1, kv.2.host)) = [("G1", some "AA")] ∧
    ((handleCreate natEngine
        (handleHello natEngine fixActive 3 helloEmpty "CC" 0).1
        (some "CC") none "G1" true 9).1.lobbies.map
      (fun kv => (kv.1, kv.2.host))) = [("G1", some "CC")] := by
  refine ⟨by decide, by decide⟩

/-- C7 (amended): lobby creation inserts the generated identifier into
the registry unconditionally — no collision check or retry exists — so
when the generated id equals a registered lobby's id, the new lobby
replaces the old one under that key. -/
theorem claim_C7_create_overwrites {Pos : Type} (E : RulesEngine Pos)
    (s : ServerState Pos) (wsPid : Option String) (prefColor : Option String)
    (genId : String) (coin : Bool) (now : Nat) (player : Player)
    (hp : getPlayer s wsPid = some player)
    (hg : truthy player.gameId = false) :
    mapGet (handleCreate E s wsPid prefColor genId coin now).1.lobbies genId =
      some { gameId := genId, createdAt := now, host := some player.playerId,
             guest := none, chess := E.start, status := "waiting", moves := [] } := by
  simp only [handleCreate, hp, hg, Bool.false_eq_true, if_false, createLobby]
  exact mapGet_set_self _ _ _

/-- C7 witness: the overwrite theorem applied to the counterexample
state. -/
theorem claim_C7_witness :
    mapGet (handleCreate natEngine
        (handleHello natEngine fixActive 3 helloEmpty "CC" 0).1
        (some "CC") none "G1" true 9).1.lobbies "G1" =
      some { gameId := "G1", createdAt := 9, host := some "CC",
             guest := none, chess := 0, status := "waiting", moves := [] } := by
  exact claim_C7_create_overwrites natEngine _ (some "CC") none "G1" true 9
    { playerId := "CC", ws := some 3, userId := none, username := none,
      createdAt := 0, lastPongAt := 0, awaitingPong := false,
      gameId := none, color := none, disconnectTimer := false }
    (by decide) (by decide)

/-! ### Claim C6 — disconnect grace-timer expiry -/

/-- C6 counterexample: BB (black) disconnects from the active lobby G1
and the grace timer fires; the lobby is finalized with the opposing
side (white) as winner as the claim says, but with reason
`disconnect_timeout`, not `left`. -/
theorem claim_C6_counterexample :
    (mapGet fixDiscBB.lobbies "G1").map Lobby.status = some "active" ∧
    mapGet fixDiscBB.players "BB" = some fixBBDisc ∧
    (fireDisconnectTimer fixDiscBB "BB").2 =
      [(Dest.player "AA", Msg.gameOver "G1" "1-0" "disconnect_timeout"),
       (Dest.player "BB", Msg.gameOver "G1" "1-0" "disconnect_timeout")] ∧
    ("disconnect_timeout" : String) ≠ "left" := by
  refine ⟨by decide, by decide, by decide, by decide⟩

/-- C6 (amended): when the grace timer of a disconnected, still-seated
participant fires, an active lobby is finalized with the opposing side
as winner and reason `disconnect_timeout` (not `left`), while a waiting
lobby only has the participant removed from it. -/
theorem claim_C6_timeout {Pos : Type} (s : ServerState Pos) (pid gid : String)
    (player : Player) (lobby : Lobby Pos) (c : Color)
    (hp : mapGet s.players pid = some player)
    (ht : player.disconnectTimer = true)
    (hw : player.ws = none)
    (hg : player.gameId = some gid)
    (htr : truthy player.gameId = true)
    (hl : mapGet s.lobbies gid = some lobby)
    (hlg : lobby.gameId = gid)
    (hc : player.color = some c)
    (hk : keysUnique s.lobbies) :
    (lobby.status = "active" →
      mapGet (fireDisconnectTimer s pid).1.lobbies gid = none ∧
      (fireDisconnectTimer s pid).2 =
        broadcastToLobby lobby
          (Msg.gameOver gid (if c = Color.white then "0-1" else "1-0")
            "disconnect_timeout") none) ∧
    (lobby.status = "waiting" →
      fireDisconnectTimer s pid = (removePlayerFromLobby s player, [])) := by
  have hget : player.gameId.getD "" = gid := by rw [hg]; rfl
  constructor
  · intro hst
    simp only [fireDisconnectTimer, hp, ht, hw, htr, hget, hl, hst, Bool.not_true,
      Bool.false_eq_true, if_false, Option.isSome_none, if_true, hc]
    have hne : lobby.status ≠ "completed" := by rw [hst]; decide
    simp only [finalizeGame, hne, if_false, hlg]
    constructor
    · exact mapGet_del_self _ _ hk
    · simp [hc]
  · intro hst
    have hne : lobby.status ≠ "active" := by rw [hst]; decide
    simp only [fireDisconnectTimer, hp, ht, hw, htr, hget, hl, hne, Bool.not_true,
      Bool.false_eq_true, if_false, Option.isSome_none, if_true]

/-- C6 witness: the amended theorem applied to the concrete
disconnected-BB fixture. -/
theorem claim_C6_witness :
    mapGet (fireDisconnectTimer fixDiscBB "BB").1.lobbies "G1" = none ∧
    (fireDisconnectTimer fixDiscBB "BB").2 =
      broadcastToLobby fixLobby (Msg.gameOver "G1" "1-0" "disconnect_timeout") none := by
  have h := (claim_C6_timeout fixDiscBB "BB" "G1" fixBBDisc fixLobby Color.black
    (by decide) rfl rfl rfl (by decide) (by decide) rfl rfl (by decide)).1 rfl
  exact ⟨h.1, by simpa using h.2⟩

/-! ### Claim C5 — messages referencing a completed lobby -/

/-- Fixture: `fixActive` after BB resigned (the lobby completed and was
removed, both seats' references cleared). -/
def fixResigned : ServerState Nat :=
  (handleResign fixActive (some "BB") (some "G1")).1

/-- C5 counterexample: after the lobby completes, a `move` referencing
its id is answered with `NOT_IN_GAME` (the mover's seat reference was
cleared by finalize), not `GAME_NOT_FOUND` as the claim states; only
`resign` answers `GAME_NOT_FOUND`. -/
theorem claim_C5_counterexample :
    mapGet fixResigned.lobbies "G1" = none ∧
    (handleMove natEngine fixResigned (some "AA") movePayloadAA 3).1 = fixResigned ∧
    (handleMove natEngine fixResigned (some "AA") movePayloadAA 3).2 =
      [(Dest.caller, Msg.error "NOT_IN_GAME" "Player not seated in a game")] ∧
    ("NOT_IN_GAME" : String) ≠ "GAME_NOT_FOUND" := by
  refine ⟨by decide, by decide, by decide, by decide⟩

/-- C5 (amended): finalize removes the lobby from the registry; a
subsequent `resign` referencing its id from an identified player is
answered `GAME_NOT_FOUND` with no state change, while a subsequent
`move` referencing it is answered with an error (`NOT_IN_GAME`, or
`INVALID_LOBBY` for a stale seat reference) that is never
`GAME_NOT_FOUND`, also with no state change. -/
theorem claim_C5_completed_lobby {Pos : Type} :
    (∀ (s : ServerState Pos) (lobby : Lobby Pos) (r rsn : String),
      keysUnique s.lobbies → lobby.status ≠ "completed" →
      mapGet (finalizeGame s lobby r rsn).1.lobbies lobby.gameId = none) ∧
    (∀ (s : ServerState Pos) (wsPid : Option String) (gid : String) (player : Player),
      getPlayer s wsPid = some player → truthy (some gid) = true →
      mapGet s.lobbies gid = none →
      handleResign s wsPid (some gid) =
        (s, [(Dest.caller, Msg.error "GAME_NOT_FOUND" "Game not available")])) ∧
    (∀ (E : RulesEngine Pos) (s : ServerState Pos) (wsPid : Option String)
       (p : MovePayload) (now : Nat) (gid : String) (player : Player),
      p.gameId = some gid → mapGet s.lobbies gid = none →
      validateMovePayload p = true →
      getPlayer s wsPid = some player → player.playerId = p.playerId.getD "" →
      (handleMove E s wsPid p now).1 = s ∧
      ∃ c m, (handleMove E s wsPid p now).2 = [(Dest.caller, Msg.error c m)] ∧
        c ≠ "GAME_NOT_FOUND") := by
  refine ⟨?_, ?_, ?_⟩
  · intro s lobby r rsn hk hne
    simp only [finalizeGame, hne, if_false]
    exact mapGet_del_self _ _ hk
  · intro s wsPid gid player hp htr hnone
    simp [handleResign, hp, htr, hnone]
  · intro E s wsPid p now gid player hpg hnone hv hp hpid
    by_cases htr : truthy player.gameId
    · by_cases heq : player.gameId = p.gameId
      · have htp : truthy p.gameId = true := heq ▸ htr
        have hget : p.gameId.getD "" = gid := by rw [hpg]; rfl
        refine ⟨?_, "INVALID_LOBBY", "Game not found or not active", ?_, by decide⟩ <;>
          simp [handleMove, hv, hp, hpid, htr, heq, htp, hget, hnone]
      · refine ⟨?_, "NOT_IN_GAME", "Player not seated in this game", ?_, by decide⟩ <;>
          simp [handleMove, hv, hp, hpid, htr, heq]
    · refine ⟨?_, "NOT_IN_GAME", "Player not seated in a game", ?_, by decide⟩ <;>
        simp [handleMove, hv, hp, hpid, htr]

/-- C5 witness: the amended theorem's resign part applied after the
concrete resignation trace. -/
theorem claim_C5_witness :
    handleResign fixResigned (some "BB") (some "G1") =
      (fixResigned, [(Dest.caller, Msg.error "GAME_NOT_FOUND" "Game not available")]) := by
  exact (@claim_C5_completed_lobby Nat).2.1 fixResigned (some "BB") "G1"
    { playerId := "BB", ws := some 2, userId := none, username := none,
      createdAt := 0, lastPongAt := 0, awaitingPong := false,
      gameId := none, color := none, disconnectTimer := false }
    (by decide) (by decide) (by decide)

/-! ### Claim C1 — move handling frame property -/

/-- The conjunction of the source's guard chain for a `move` message:
payload well-formed, submitter identified and matching the payload,
seated in the referenced lobby, lobby registered and active, the
submitter's side to move, and the rules engine accepting the move. -/
def moveAllowed {Pos : Type} (E : RulesEngine Pos) (s : ServerState Pos)
    (wsPid : Option String) (p : MovePayload) : Bool :=
  validateMovePayload p &&
  match getPlayer s wsPid with
  | none => false
  | some player =>
    decide (player.playerId = p.playerId.getD "") &&
    truthy player.gameId &&
    decide (player.gameId = p.gameId) &&
    match mapGet s.lobbies (player.gameId.getD "") with
    | none => false
    | some lobby =>
      decide (lobby.status = "active") &&
      decide (player.color = some (E.turn lobby.chess)) &&
      (tryMove E lobby.chess p.uci).isSome

/-- C1: a `move` message leaves the whole registry state untouched and
answers with exactly one error reply whenever any of the guard
conditions fails; when all guards pass they entail precisely the
claim's conditions (submitter seated in the referenced lobby, lobby
active, submitter's side to move, rules engine accepts); and any state
change at all implies the guards passed. -/
theorem claim_C1_move_frame {Pos : Type} (E : RulesEngine Pos) (s : ServerState Pos)
    (wsPid : Option String) (p : MovePayload) (now : Nat) :
    (moveAllowed E s wsPid p = false →
      (handleMove E s wsPid p now).1 = s ∧
      ∃ c m, (handleMove E s wsPid p now).2 = [(Dest.caller, Msg.error c m)]) ∧
    (moveAllowed E s wsPid p = true →
      ∃ player lobby pos2,
        getPlayer s wsPid = some player ∧
        player.playerId = p.playerId.getD "" ∧
        player.gameId = p.gameId ∧
        mapGet s.lobbies (p.gameId.getD "") = some lobby ∧
        lobby.status = "active" ∧
        player.color = some (E.turn lobby.chess) ∧
        tryMove E lobby.chess p.uci = some pos2) ∧
    ((handleMove E s wsPid p now).1 ≠ s → moveAllowed E s wsPid p = true) := by
  by_cases hv : validateMovePayload p
  · rcases hgp : getPlayer s wsPid with _ | player
    · have hall : moveAllowed E s wsPid p = false := by
        simp [moveAllowed, hv, hgp]
      have hres : handleMove E s wsPid p now =
          (s, [(Dest.caller, Msg.error "PLAYER_MISMATCH" "Player not recognized for move")]) := by
        simp [handleMove, hv, hgp]
      exact ⟨fun _ => ⟨by simp [hres], "PLAYER_MISMATCH", "Player not recognized for move", by simp [hres]⟩,
             fun htrue => by rw [hall] at htrue; exact Bool.noConfusion htrue,
             fun hne => by rw [hres] at hne; exact absurd rfl hne⟩
    · by_cases hpid : player.playerId = p.playerId.getD ""
      · by_cases htr : truthy player.gameId
        · by_cases heq : player.gameId = p.gameId
          · have htr2 : truthy p.gameId = true := heq ▸ htr
            rcases hl : mapGet s.lobbies (p.gameId.getD "") with _ | lobby
            · have hall : moveAllowed E s wsPid p = false := by
                simp [moveAllowed, hv, hgp, hpid, htr2, heq, hl]
              have hres : handleMove E s wsPid p now =
                  (s, [(Dest.caller, Msg.error "INVALID_LOBBY" "Game not found or not active")]) := by
                simp [handleMove, hv, hgp, hpid, htr2, heq, hl]
              exact ⟨fun _ => ⟨by simp [hres], "INVALID_LOBBY", "Game not found or not active", by simp [hres]⟩,
                     fun htrue => by rw [hall] at htrue; exact Bool.noConfusion htrue,
                     fun hne => by rw [hres] at hne; exact absurd rfl hne⟩
            · by_cases hst : lobby.status = "active"
              · by_cases hc : player.color = some (E.turn lobby.chess)
                · rcases hmv : tryMove E lobby.chess p.uci with _ | pos2
                  · have hall : moveAllowed E s wsPid p = false := by
                      simp [moveAllowed, hv, hgp, hpid, htr2, heq, hl, hst, hc, hmv]
                    have hres : handleMove E s wsPid p now =
                        (s, [(Dest.caller, Msg.error "ILLEGAL_MOVE" "Illegal move")]) := by
                      simp [handleMove, hv, hgp, hpid, htr2, heq, hl, hst, hc, hmv]
                    exact ⟨fun _ => ⟨by simp [hres], "ILLEGAL_MOVE", "Illegal move", by simp [hres]⟩,
                           fun htrue => by rw [hall] at htrue; exact Bool.noConfusion htrue,
                           fun hne => by rw [hres] at hne; exact absurd rfl hne⟩
                  · have hall : moveAllowed E s wsPid p = true := by
                      simp [moveAllowed, hv, hgp, hpid, htr2, heq, hl, hst, hc, hmv]
                    exact ⟨fun hfalse => by rw [hall] at hfalse; exact Bool.noConfusion hfalse,
                           fun _ => ⟨player, lobby, pos2, rfl, hpid, heq, rfl, hst, hc, hmv⟩,
                           fun _ => hall⟩
                · have hall : moveAllowed E s wsPid p = false := by
                    simp [moveAllowed, hv, hgp, hpid, htr2, heq, hl, hst, hc]
                  have hres : handleMove E s wsPid p now =
                      (s, [(Dest.caller, Msg.error "WRONG_TURN" "Not your turn")]) := by
                    simp [handleMove, hv, hgp, hpid, htr2, heq, hl, hst, hc]
                  exact ⟨fun _ => ⟨by simp [hres], "WRONG_TURN", "Not your turn", by simp [hres]⟩,
                         fun htrue => by rw [hall] at htrue; exact Bool.noConfusion htrue,
                         fun hne => by rw [hres] at hne; exact absurd rfl hne⟩
              · have hall : moveAllowed E s wsPid p = false := by
                  simp [moveAllowed, hv, hgp, hpid, htr2, heq, hl, hst]
                have hres : handleMove E s wsPid p now =
                    (s, [(Dest.caller, Msg.error "INVALID_LOBBY" "Game not found or not active")]) := by
                  simp [handleMove, hv, hgp, hpid, htr2, heq, hl, hst]
                exact ⟨fun _ => ⟨by simp [hres], "INVALID_LOBBY", "Game not found or not active", by simp [hres]⟩,
                       fun htrue => by rw [hall] at htrue; exact Bool.noConfusion htrue,
                       fun hne => by rw [hres] at hne; exact absurd rfl hne⟩
          · have hall : moveAllowed E s wsPid p = false := by
              simp [moveAllowed, hv, hgp, hpid, htr, heq]
            have hres : handleMove E s wsPid p now =
                (s, [(Dest.caller, Msg.error "NOT_IN_GAME" "Player not seated in this game")]) := by
              simp [handleMove, hv, hgp, hpid, htr, heq]
            exact ⟨fun _ => ⟨by simp [hres], "NOT_IN_GAME", "Player not seated in this game", by simp [hres]⟩,
                   fun htrue => by rw [hall] at htrue; exact Bool.noConfusion htrue,
                   fun hne => by rw [hres] at hne; exact absurd rfl hne⟩
        · have hall : moveAllowed E s wsPid p = false := by
            simp [moveAllowed, hv, hgp, hpid, htr]
          have hres : handleMove E s wsPid p now =
              (s, [(Dest.caller, Msg.error "NOT_IN_GAME" "Player not seated in a game")]) := by
            simp [handleMove, hv, hgp, hpid, htr]
          exact ⟨fun _ => ⟨by simp [hres], "NOT_IN_GAME", "Player not seated in a game", by simp [hres]⟩,
                 fun htrue => by rw [hall] at htrue; exact Bool.noConfusion htrue,
                 fun hne => by rw [hres] at hne; exact absurd rfl hne⟩
      · have hall : moveAllowed E s wsPid p = false := by
          simp [moveAllowed, hv, hgp, hpid]
        have hres : handleMove E s wsPid p now =
            (s, [(Dest.caller, Msg.error "PLAYER_MISMATCH" "Player not recognized for move")]) := by
          simp [handleMove, hv, hgp, hpid]
        exact ⟨fun _ => ⟨by simp [hres], "PLAYER_MISMATCH", "Player not recognized for move", by simp [hres]⟩,
               fun htrue => by rw [hall] at htrue; exact Bool.noConfusion htrue,
               fun hne => by rw [hres] at hne; exact absurd rfl hne⟩
  · have hall : moveAllowed E s wsPid p = false := by
      simp [moveAllowed, hv]
    have hres : handleMove E s wsPid p now =
        (s, [(Dest.caller, Msg.error "INVALID_PAYLOAD" "Invalid move payload")]) := by
      simp [handleMove, hv]
    exact ⟨fun _ => ⟨by simp [hres], "INVALID_PAYLOAD", "Invalid move payload", by simp [hres]⟩,
           fun htrue => by rw [hall] at htrue; exact Bool.noConfusion htrue,
           fun hne => by rw [hres] at hne; exact absurd rfl hne⟩

/-- C1 witness: the frame part applied to a concrete rejected move
(AA moving in the already-completed lobby G1). -/
theorem claim_C1_witness :
    (handleMove natEngine fixResigned (some "AA") movePayloadAA 3).1 = fixResigned ∧
    ∃ c m, (handleMove natEngine fixResigned (some "AA") movePayloadAA 3).2 =
      [(Dest.caller, Msg.error c m)] :=
  (claim_C1_move_frame natEngine fixResigned (some "AA") movePayloadAA 3).1 (by decide)

/-! ### Claim C4 — terminal-condition handling after an accepted move -/

/-- The lobby record after an accepted move: position replaced, move
record appended (the shape `handleMove` stores back into the registry). -/
def movedLobby {Pos : Type} (E : RulesEngine Pos) (lobby : Lobby Pos) (pos2 : Pos)
    (player : Player) (p : MovePayload) (now : Nat) : Lobby Pos :=
  let rec1 : MoveRecord := { playerId := player.playerId, uci := p.uci.getD "", fenAfter := E.fen pos2, timestamp := now }
  { lobby with chess := pos2, moves := lobby.moves ++ [rec1] }

/-- C4: on an accepted move in an active lobby, `determineGameOutcome`
is consulted in source order (checkmate resolves to a win for the
mover's side with reason `checkmate`; stalemate, threefold repetition,
insufficient material and any other draw each resolve to `1/2-1/2`); a
non-terminal position leaves the lobby registered and active with the
move appended, while any terminal outcome removes the lobby from the
registry and broadcasts `game_over` after the move broadcast. -/
theorem claim_C4_terminal_outcomes {Pos : Type} (E : RulesEngine Pos)
    (s : ServerState Pos) (wsPid : Option String) (p : MovePayload) (now : Nat)
    (player : Player) (lobby : Lobby Pos) (pos2 : Pos)
    (hv : validateMovePayload p = true)
    (hgp : getPlayer s wsPid = some player)
    (hpid : player.playerId = p.playerId.getD "")
    (htr : truthy p.gameId = true)
    (heq : player.gameId = p.gameId)
    (hl : mapGet s.lobbies (p.gameId.getD "") = some lobby)
    (hlg : lobby.gameId = p.gameId.getD "")
    (hst : lobby.status = "active")
    (hc : player.color = some (E.turn lobby.chess))
    (hmv : tryMove E lobby.chess p.uci = some pos2)
    (hk : keysUnique s.lobbies) :
    (E.isCheckmate pos2 = true →
      determineGameOutcome E pos2 player.color =
        some (if player.color = some Color.white then "1-0" else "0-1", "checkmate")) ∧
    (E.isCheckmate pos2 = false → E.isStalemate pos2 = true →
      determineGameOutcome E pos2 player.color = some ("1/2-1/2", "stalemate")) ∧
    (E.isCheckmate pos2 = false → E.isStalemate pos2 = false →
      E.isThreefoldRepetition pos2 = true →
      determineGameOutcome E pos2 player.color = some ("1/2-1/2", "threefold")) ∧
    (E.isCheckmate pos2 = false → E.isStalemate pos2 = false →
      E.isThreefoldRepetition pos2 = false → E.isInsufficientMaterial pos2 = true →
      determineGameOutcome E pos2 player.color = some ("1/2-1/2", "insufficient_material")) ∧
    (E.isCheckmate pos2 = false → E.isStalemate pos2 = false →
      E.isThreefoldRepetition pos2 = false → E.isInsufficientMaterial pos2 = false →
      E.isDraw pos2 = true →
      determineGameOutcome E pos2 player.color = some ("1/2-1/2", "draw")) ∧
    (E.isCheckmate pos2 = false → E.isStalemate pos2 = false →
      E.isThreefoldRepetition pos2 = false → E.isInsufficientMaterial pos2 = false →
      E.isDraw pos2 = false →
      determineGameOutcome E pos2 player.color = none) ∧
    (determineGameOutcome E pos2 player.color = none →
      mapGet (handleMove E s wsPid p now).1.lobbies (p.gameId.getD "") =
        some (movedLobby E lobby pos2 player p now) ∧
      (movedLobby E lobby pos2 player p now).status = "active" ∧
      (handleMove E s wsPid p now).2 =
        broadcastToLobby (movedLobby E lobby pos2 player p now)
          (Msg.move (p.gameId.getD "") player.playerId (p.uci.getD "")
            (E.fen pos2) (E.turn pos2)) none) ∧
    (∀ r rsn, determineGameOutcome E pos2 player.color = some (r, rsn) →
      mapGet (handleMove E s wsPid p now).1.lobbies (p.gameId.getD "") = none ∧
      (handleMove E s wsPid p now).2 =
        broadcastToLobby (movedLobby E lobby pos2 player p now)
          (Msg.move (p.gameId.getD "") player.playerId (p.uci.getD "")
            (E.fen pos2) (E.turn pos2)) none ++
        broadcastToLobby (movedLobby E lobby pos2 player p now)
          (Msg.gameOver lobby.gameId r rsn) none) := by
  refine ⟨?_, ?_, ?_, ?_, ?_, ?_, ?_, ?_⟩
  · intro h1
    simp [determineGameOutcome, h1]
  · intro h1 h2
    simp [determineGameOutcome, h1, h2]
  · intro h1 h2 h3
    simp [determineGameOutcome, h1, h2, h3]
  · intro h1 h2 h3 h4
    simp [determineGameOutcome, h1, h2, h3, h4]
  · intro h1 h2 h3 h4 h5
    simp [determineGameOutcome, h1, h2, h3, h4, h5]
  · intro h1 h2 h3 h4 h5
    simp [determineGameOutcome, h1, h2, h3, h4, h5]
  · intro hout
    have hout2 : determineGameOutcome E pos2 (some (E.turn lobby.chess)) = none := hc ▸ hout
    have hres : handleMove E s wsPid p now =
        ({ s with lobbies := mapSet s.lobbies (p.gameId.getD "") (movedLobby E lobby pos2 player p now) },
         broadcastToLobby (movedLobby E lobby pos2 player p now) (Msg.move (p.gameId.getD "") player.playerId (p.uci.getD "") (E.fen pos2) (E.turn pos2)) none) := by
      simp [handleMove, movedLobby, hv, hgp, htr, heq, hl, hst, hc, hmv, hout2, hpid]
    rw [hres]
    refine ⟨mapGet_set_self _ _ _, ?_, rfl⟩
    simp [movedLobby, hst]
  · intro r rsn hout
    have hout2 : determineGameOutcome E pos2 (some (E.turn lobby.chess)) = some (r, rsn) := hc ▸ hout
    have hne : (movedLobby E lobby pos2 player p now).status ≠ "completed" := by
      simp [movedLobby, hst]
    have hres : handleMove E s wsPid p now =
        ((finalizeGame { s with lobbies := mapSet s.lobbies (p.gameId.getD "") (movedLobby E lobby pos2 player p now) } (movedLobby E lobby pos2 player p now) r rsn).1,
         broadcastToLobby (movedLobby E lobby pos2 player p now) (Msg.move (p.gameId.getD "") player.playerId (p.uci.getD "") (E.fen pos2) (E.turn pos2)) none ++
         (finalizeGame { s with lobbies := mapSet s.lobbies (p.gameId.getD "") (movedLobby E lobby pos2 player p now) } (movedLobby E lobby pos2 player p now) r rsn).2) := by
      simp [handleMove, movedLobby, hv, hgp, htr, heq, hl, hst, hc, hmv, hout2, hpid]
    rw [hres]
    constructor
    · simp only [finalizeGame, hne, if_false]
      have hkey : (movedLobby E lobby pos2 player p now).gameId = p.gameId.getD "" := hlg
      rw [hkey]
      exact mapGet_del_self _ _ (keysUnique_set _ _ _ hk)
    · simp only [finalizeGame, hne, if_false]
      have hkey : (movedLobby E lobby pos2 player p now).gameId = lobby.gameId := rfl
      simp [movedLobby]

/-- Player AA as seated in `fixActive`. -/
def fixAA : Player :=
  { playerId := "AA", ws := some 1, userId := none, username := none,
    createdAt := 0, lastPongAt := 0, awaitingPong := false,
    gameId := some "G1", color := some Color.white, disconnectTimer := false }

/-- C4 witness: with an engine whose position after AA's move is
checkmate, the concrete active lobby is finalized and removed. -/
theorem claim_C4_witness :
    mapGet (handleMove mateEngine fixActive (some "AA") movePayloadAA 2).1.lobbies "G1" = none := by
  have h := (claim_C4_terminal_outcomes mateEngine fixActive (some "AA") movePayloadAA 2
      fixAA fixLobby 1 (by decide) (by decide) (by decide) (by decide) (by decide)
      (by decide) (by decide) (by decide) (by decide) (by decide)
      (by decide)).2.2.2.2.2.2.2 "1-0" "checkmate" (by decide)
  exact h.1

/-! ### Claim C2 — the guest/status registry invariant -/

/-- The claimed per-lobby invariant: an empty guest seat implies status
`waiting`, and status `active` implies both seats are occupied. -/
abbrev lobbyOk {Pos : Type} (l : Lobby Pos) : Prop :=
  (l.guest = none → l.status = "waiting") ∧
  (l.status = "active" → l.host ≠ none ∧ l.guest ≠ none)

/-- The invariant over every lobby present in the registry. -/
abbrev lobbiesOk {Pos : Type} (m : List (String × Lobby Pos)) : Prop :=
  ∀ kv ∈ m, lobbyOk kv.2

theorem lobbiesOk_set {Pos : Type} {m : List (String × Lobby Pos)} {k : String}
    {v : Lobby Pos} (h : lobbiesOk m) (hv : lobbyOk v) : lobbiesOk (mapSet m k v) :=
  fun kv hkv => (mem_mapSet_cases m k v kv hkv).elim (h kv) (fun he => he ▸ hv)

theorem lobbiesOk_del {Pos : Type} {m : List (String × Lobby Pos)} {k : String}
    (h : lobbiesOk m) : lobbiesOk (mapDel m k) :=
  fun kv hkv => h kv (mem_mapDel_sub m k kv hkv)

theorem lobbiesOk_get {Pos : Type} {m : List (String × Lobby Pos)} {k : String}
    {v : Lobby Pos} (h : lobbiesOk m) (hget : mapGet m k = some v) : lobbyOk v :=
  h (k, v) (mapGet_mem m k v hget)

theorem lobbyOk_of_waiting {Pos : Type} (l : Lobby Pos) (h : l.status = "waiting") :
    lobbyOk l :=
  ⟨fun _ => h, fun ha => absurd (h.symm.trans ha) (by decide)⟩

theorem lobbiesOk_finalize {Pos : Type} (s : ServerState Pos) (lobby : Lobby Pos)
    (r rsn : String) (h : lobbiesOk s.lobbies) :
    lobbiesOk (finalizeGame s lobby r rsn).1.lobbies := by
  simp only [finalizeGame]
  split
  · exact h
  · exact lobbiesOk_del h

theorem lobbiesOk_remove {Pos : Type} (s : ServerState Pos) (player : Player)
    (h : lobbiesOk s.lobbies) :
    lobbiesOk (removePlayerFromLobby s player).lobbies := by
  simp only [removePlayerFromLobby]
  split
  · exact h
  · split
    · exact h
    · split <;> split <;> split <;>
        first
          | exact lobbiesOk_del h
          | exact lobbiesOk_set h (lobbyOk_of_waiting _ rfl)

theorem lobbiesOk_start {Pos : Type} (E : RulesEngine Pos) (s : ServerState Pos)
    (gidKey : String) (lobby : Lobby Pos) (h : lobbiesOk s.lobbies) :
    lobbiesOk (startGame E s gidKey lobby).1.lobbies := by
  simp only [startGame]
  split
  · rename_i hid gid2 hh hg
    refine lobbiesOk_set h ⟨fun hgn => ?_, fun _ => ⟨?_, ?_⟩⟩
    · simp [hg] at hgn
    · simp [hh]
    · simp [hg]
  · exact h

theorem lobbiesOk_attach {Pos : Type} (E : RulesEngine Pos) (s : ServerState Pos)
    (gidKey : String) (lobby : Lobby Pos) (player : Player)
    (h : lobbiesOk s.lobbies) :
    lobbiesOk (attachPlayerToLobby E s gidKey lobby player).1.lobbies := by
  simp only [attachPlayerToLobby]
  split
  · exact h
  · rename_i hid hh
    refine lobbiesOk_start E _ gidKey _ (lobbiesOk_set h ⟨fun hgn => ?_, fun _ => ⟨?_, ?_⟩⟩)
    · simp at hgn
    · simp [hh]
    · simp

theorem lobbiesOk_join {Pos : Type} (E : RulesEngine Pos) (s : ServerState Pos)
    (wsPid payloadGameId : Option String) (h : lobbiesOk s.lobbies) :
    lobbiesOk (handleJoin E s wsPid payloadGameId).1.lobbies := by
  simp only [handleJoin]
  split
  · exact h
  · split
    · exact h
    · split
      · exact h
      · split
        · exact h
        · split
          · exact h
          · exact lobbiesOk_attach E s _ _ _ h

theorem lobbiesOk_create {Pos : Type} (E : RulesEngine Pos) (s : ServerState Pos)
    (wsPid preferredColor : Option String) (genId : String) (coin : Bool) (now : Nat)
    (h : lobbiesOk s.lobbies) :
    lobbiesOk (handleCreate E s wsPid preferredColor genId coin now).1.lobbies := by
  simp only [handleCreate]
  split
  · exact h
  · split
    · exact h
    · simp only [createLobby]
      exact lobbiesOk_set h (lobbyOk_of_waiting _ rfl)

theorem lobbiesOk_move {Pos : Type} (E : RulesEngine Pos) (s : ServerState Pos)
    (wsPid : Option String) (p : MovePayload) (now : Nat)
    (h : lobbiesOk s.lobbies) :
    lobbiesOk (handleMove E s wsPid p now).1.lobbies := by
  simp only [handleMove]
  split
  · exact h
  · split
    · exact h
    · split
      · exact h
      · split
        · exact h
        · split
          · exact h
          · split
            · exact h
            · rename_i lobby hget
              split
              · exact h
              · split
                · exact h
                · split
                  · exact h
                  · rename_i pos2 hmv
                    have hOk : lobbyOk lobby := lobbiesOk_get h hget
                    split
                    · exact lobbiesOk_set h ⟨hOk.1, hOk.2⟩
                    · exact lobbiesOk_finalize _ _ _ _ (lobbiesOk_set h ⟨hOk.1, hOk.2⟩)

theorem lobbiesOk_resign {Pos : Type} (s : ServerState Pos)
    (wsPid payloadGameId : Option String) (h : lobbiesOk s.lobbies) :
    lobbiesOk (handleResign s wsPid payloadGameId).1.lobbies := by
  simp only [handleResign]
  split
  · exact h
  · split
    · exact h
    · split
      · exact h
      · split
        · exact h
        · exact lobbiesOk_finalize _ _ _ _ h

theorem lobbiesOk_leave {Pos : Type} (s : ServerState Pos)
    (wsPid : Option String) (h : lobbiesOk s.lobbies) :
    lobbiesOk (handleLeave s wsPid).1.lobbies := by
  simp only [handleLeave]
  split
  · exact h
  · split
    · exact h
    · split
      · exact h
      · split
        · exact lobbiesOk_finalize _ _ _ _ h
        · exact lobbiesOk_remove _ _ h

theorem lobbiesOk_hello {Pos : Type} (E : RulesEngine Pos) (s : ServerState Pos)
    (connId : Nat) (p : HelloPayload) (freshId : String) (now : Nat)
    (h : lobbiesOk s.lobbies) :
    lobbiesOk (handleHello E s connId p freshId now).1.lobbies := by
  simp only [handleHello]
  split <;> exact h

theorem lobbiesOk_pong {Pos : Type} (s : ServerState Pos) (wsPid : Option String)
    (now : Nat) (h : lobbiesOk s.lobbies) :
    lobbiesOk (handlePong s wsPid now).1.lobbies := by
  simp only [handlePong]
  split <;> exact h

theorem lobbiesOk_disconnect {Pos : Type} (s : ServerState Pos)
    (wsPid : Option String) (h : lobbiesOk s.lobbies) :
    lobbiesOk (handleDisconnect s wsPid).1.lobbies := by
  simp only [handleDisconnect]
  split <;> exact h

theorem lobbiesOk_fire {Pos : Type} (s : ServerState Pos) (pid : String)
    (h : lobbiesOk s.lobbies) :
    lobbiesOk (fireDisconnectTimer s pid).1.lobbies := by
  simp only [fireDisconnectTimer]
  split
  · exact h
  · split
    · exact h
    · split
      · exact h
      · split
        · exact h
        · split
          · exact h
          · split
            · exact lobbiesOk_finalize _ _ _ _ h
            · exact lobbiesOk_remove _ _ h

/-- C2: no registered lobby ever violates `guest = none → waiting` or
`active → both seats occupied`: the invariant holds of the initial
(empty) registry and is preserved by every dispatched unit of work
(every message handler, the disconnect path, the grace-timer expiry and
the cleanup sweep), hence at every instant reachable by the handlers. -/
theorem claim_C2_lobby_invariant {Pos : Type} (E : RulesEngine Pos) :
    lobbiesOk (initState Pos).lobbies ∧
    ∀ (s : ServerState Pos) (op : Op),
      lobbiesOk s.lobbies → lobbiesOk (step E op s).1.lobbies := by
  constructor
  · intro kv hkv
    simp [initState] at hkv
  · intro s op h
    cases op with
    | hello connId p freshId now => exact lobbiesOk_hello E s connId p freshId now h
    | create wsPid preferredColor genId coin now =>
        exact lobbiesOk_create E s wsPid preferredColor genId coin now h
    | join wsPid gameId => exact lobbiesOk_join E s wsPid gameId h
    | move wsPid p now => exact lobbiesOk_move E s wsPid p now h
    | resign wsPid gameId => exact lobbiesOk_resign s wsPid gameId h
    | leave wsPid => exact lobbiesOk_leave s wsPid h
    | pong wsPid now => exact lobbiesOk_pong s wsPid now h
    | disconnect wsPid => exact lobbiesOk_disconnect s wsPid h
    | timerFire pid => exact lobbiesOk_fire s pid h
    | cleanup now => exact h

/-- C2 witness: the preservation step applied to the concrete active
fixture and AA's `leave` message. -/
theorem claim_C2_witness :
    lobbiesOk (step natEngine (Op.leave (some "AA")) fixActive).1.lobbies :=
  (claim_C2_lobby_invariant natEngine).2 fixActive (Op.leave (some "AA")) (by decide)

/-! ### Claim C8 — per-ply failure tolerance of the analysis loop -/

/-- Whether the rules engine accepts every ply of the replay. -/
def replayOk {Pos : Type} (E : RulesEngine Pos) : Pos → List VerboseMove → Bool
  | _, [] => true
  | pos, mv :: rest =>
    match E.move pos mv.mfrom mv.mto mv.promotion with
    | none => false
    | some pos2 => replayOk E pos2 rest

/-- Index of the first ply the rules engine rejects, if any. -/
def firstRejectIdx {Pos : Type} (E : RulesEngine Pos) :
    Pos → List VerboseMove → Option Nat
  | _, [] => none
  | pos, mv :: rest =>
    match E.move pos mv.mfrom mv.mto mv.promotion with
    | none => some 0
    | some pos2 => (firstRejectIdx E pos2 rest).map (· + 1)

theorem analyzeLoop_len_ok {Pos : Type} (E : RulesEngine Pos)
    (pre post : Nat → Except String BestMoveResult) (th : Thresholds) :
    ∀ (plies : List VerboseMove) (pos : Pos) (idx : Nat),
      replayOk E pos plies = true →
      (analyzeLoop E pre post th pos idx plies).graph.length = plies.length := by
  intro plies
  induction plies with
  | nil => intro pos idx _; rfl
  | cons mv rest ih =>
    intro pos idx hok
    simp only [replayOk] at hok
    simp only [analyzeLoop]
    rcases hmv : E.move pos mv.mfrom mv.mto mv.promotion with _ | pos2
    · rw [hmv] at hok
      simp at hok
    · rw [hmv] at hok
      dsimp only at hok ⊢
      simp only [List.length_cons]
      rw [ih pos2 (idx + 1) hok]

theorem analyzeLoop_pre_err {Pos : Type} (E : RulesEngine Pos)
    (pre post : Nat → Except String BestMoveResult) (th : Thresholds) :
    ∀ (plies : List VerboseMove) (pos : Pos) (idx : Nat) (k : Nat) (m : String),
      replayOk E pos plies = true → k < plies.length →
      pre (idx + k) = Except.error m →
      ({ ply := idx + k + 1, context := "pre-move", message := m } : AnalysisErr) ∈
        (analyzeLoop E pre post th pos idx plies).errors := by
  intro plies
  induction plies with
  | nil => intro pos idx k m _ hk; simp at hk
  | cons mv rest ih =>
    intro pos idx k m hok hk herr
    simp only [replayOk] at hok
    simp only [analyzeLoop]
    rcases hmv : E.move pos mv.mfrom mv.mto mv.promotion with _ | pos2
    · rw [hmv] at hok
      simp at hok
    · rw [hmv] at hok
      dsimp only at hok ⊢
      rcases k with _ | k2
      · rw [Nat.add_zero] at herr
        simp [herr]
      · have h1 : idx + (k2 + 1) = (idx + 1) + k2 := by omega
        rw [h1] at herr
        have hmem := ih pos2 (idx + 1) k2 m hok (by simpa using hk) herr
        have h2 : (idx + 1) + k2 + 1 = idx + (k2 + 1) + 1 := by omega
        rw [h2] at hmem
        rw [List.mem_append]
        exact Or.inr hmem

theorem analyzeLoop_post_err {Pos : Type} (E : RulesEngine Pos)
    (pre post : Nat → Except String BestMoveResult) (th : Thresholds) :
    ∀ (plies : List VerboseMove) (pos : Pos) (idx : Nat) (k : Nat) (m : String),
      replayOk E pos plies = true → k < plies.length →
      post (idx + k) = Except.error m →
      ({ ply := idx + k + 1, context := "post-move", message := m } : AnalysisErr) ∈
        (analyzeLoop E pre post th pos idx plies).errors := by
  intro plies
  induction plies with
  | nil => intro pos idx k m _ hk; simp at hk
  | cons mv rest ih =>
    intro pos idx k m hok hk herr
    simp only [replayOk] at hok
    simp only [analyzeLoop]
    rcases hmv : E.move pos mv.mfrom mv.mto mv.promotion with _ | pos2
    · rw [hmv] at hok
      simp at hok
    · rw [hmv] at hok
      dsimp only at hok ⊢
      rcases k with _ | k2
      · rw [Nat.add_zero] at herr
        simp [herr]
      · have h1 : idx + (k2 + 1) = (idx + 1) + k2 := by omega
        rw [h1] at herr
        have hmem := ih pos2 (idx + 1) k2 m hok (by simpa using hk) herr
        have h2 : (idx + 1) + k2 + 1 = idx + (k2 + 1) + 1 := by omega
        rw [h2] at hmem
        rw [List.mem_append]
        exact Or.inr hmem

theorem analyzeLoop_stops {Pos : Type} (E : RulesEngine Pos)
    (pre post : Nat → Except String BestMoveResult) (th : Thresholds) :
    ∀ (plies : List VerboseMove) (pos : Pos) (idx : Nat) (j : Nat),
      firstRejectIdx E pos plies = some j →
      (analyzeLoop E pre post th pos idx plies).graph.length = j ∧
      (∃ msg, (analyzeLoop E pre post th pos idx plies).errors.getLast? =
        some { ply := idx + j + 1, context := "apply-move", message := msg }) ∧
      (∀ e ∈ (analyzeLoop E pre post th pos idx plies).errors, e.ply ≤ idx + j + 1) := by
  intro plies
  induction plies with
  | nil => intro pos idx j hj; simp [firstRejectIdx] at hj
  | cons mv rest ih =>
    intro pos idx j hj
    simp only [firstRejectIdx] at hj
    simp only [analyzeLoop]
    rcases hmv : E.move pos mv.mfrom mv.mto mv.promotion with _ | pos2
    · rw [hmv] at hj
      dsimp only at hj ⊢
      simp only [Option.some.injEq] at hj
      subst hj
      refine ⟨rfl, ⟨"Failed to apply move " ++ mv.san, ?_⟩, ?_⟩
      · rcases hpre : pre idx with m2 | _ <;> simp
      · intro e he
        rcases hpre : pre idx with m2 | _ <;> rw [hpre] at he <;> dsimp only at he
        · rw [List.mem_append, List.mem_singleton, List.mem_singleton] at he
          rcases he with he | he <;> subst he <;> dsimp only <;> omega
        · rw [List.nil_append, List.mem_singleton] at he
          subst he
          dsimp only
          omega
    · rw [hmv] at hj
      dsimp only at hj ⊢
      rcases hrest : firstRejectIdx E pos2 rest with _ | j2
      · rw [hrest] at hj
        simp at hj
      · rw [hrest] at hj
        simp only [Option.map_some', Option.some.injEq] at hj
        subst hj
        obtain ⟨hlen, ⟨msg, hlast⟩, hple⟩ := ih pos2 (idx + 1) j2 hrest
        have hne : (analyzeLoop E pre post th pos2 (idx + 1) rest).errors ≠ [] := by
          intro hnil
          rw [hnil] at hlast
          simp at hlast
        refine ⟨by simp [hlen], ⟨msg, ?_⟩, ?_⟩
        · rw [List.getLast?_append_of_ne_nil _ hne]
          have h3 : idx + 1 + j2 + 1 = idx + (j2 + 1) + 1 := by omega
          rw [← h3]
          exact hlast
        · intro e he
          rw [List.mem_append] at he
          rcases he with he | he
          · rw [List.mem_append] at he
            rcases he with he | he
            · rcases hpre : pre idx with m2 | _ <;> rw [hpre] at he <;> dsimp only at he
              · rw [List.mem_singleton] at he
                subst he
                dsimp only
                omega
              · exact absurd he (List.not_mem_nil e)
            · rcases hpost : post idx with m2 | _ <;> rw [hpost] at he <;> dsimp only at he
              · rw [List.mem_singleton] at he
                subst he
                dsimp only
                omega
              · exact absurd he (List.not_mem_nil e)
          · have := hple e he
            omega

theorem replayOk_iff_none {Pos : Type} (E : RulesEngine Pos) :
    ∀ (plies : List VerboseMove) (pos : Pos),
      replayOk E pos plies = true ↔ firstRejectIdx E pos plies = none := by
  intro plies
  induction plies with
  | nil => intro pos; simp [replayOk, firstRejectIdx]
  | cons mv rest ih =>
    intro pos
    simp only [replayOk, firstRejectIdx]
    rcases hmv : E.move pos mv.mfrom mv.mto mv.promotion with _ | pos2
    · simp
    · simp [ih pos2]

/-- C8: in the analysis replay loop a rejected rules-engine apply is the
only early stop — when every ply applies, the loop runs to the end of
the (capped) move list no matter how many pre-move or post-move engine calls
fail, and each such failure is recorded in the error list with its ply
and context; at the first rejected ply the loop stops with the graph
holding exactly the plies before it, the apply-move error recorded last,
and no record mentioning any later ply. -/
theorem claim_C8_analysis_errors {Pos : Type} (E : RulesEngine Pos)
    (pre post : Nat → Except String BestMoveResult) (th : Thresholds) :
    (∀ (plies : List VerboseMove) (pos : Pos) (idx : Nat),
      replayOk E pos plies = true →
      (analyzeLoop E pre post th pos idx plies).graph.length = plies.length ∧
      (∀ k m, k < plies.length → pre (idx + k) = Except.error m →
        ({ ply := idx + k + 1, context := "pre-move", message := m } : AnalysisErr) ∈
          (analyzeLoop E pre post th pos idx plies).errors) ∧
      (∀ k m, k < plies.length → post (idx + k) = Except.error m →
        ({ ply := idx + k + 1, context := "post-move", message := m } : AnalysisErr) ∈
          (analyzeLoop E pre post th pos idx plies).errors)) ∧
    (∀ (plies : List VerboseMove) (pos : Pos) (idx : Nat) (j : Nat),
      firstRejectIdx E pos plies = some j →
      (analyzeLoop E pre post th pos idx plies).graph.length = j ∧
      (∃ msg, (analyzeLoop E pre post th pos idx plies).errors.getLast? =
        some { ply := idx + j + 1, context := "apply-move", message := msg }) ∧
      (∀ e ∈ (analyzeLoop E pre post th pos idx plies).errors, e.ply ≤ idx + j + 1)) ∧
    (∀ (moves : List VerboseMove) (maxPlies : Option Nat),
      replayOk E E.start (moves.take (analysisLimit maxPlies moves.length)) = true →
      (analyzeGameModel E pre post th moves maxPlies).graph.length =
        (moves.take (analysisLimit maxPlies moves.length)).length) := by
  refine ⟨?_, analyzeLoop_stops E pre post th, ?_⟩
  · intro plies pos idx hok
    exact ⟨analyzeLoop_len_ok E pre post th plies pos idx hok,
      fun k m hk herr => analyzeLoop_pre_err E pre post th plies pos idx k m hok hk herr,
      fun k m hk herr => analyzeLoop_post_err E pre post th plies pos idx k m hok hk herr⟩
  · intro moves maxPlies hok
    exact analyzeLoop_len_ok E pre post th _ E.start 0 hok

/-- A recorded ply for the C8 witness. -/
def vm1 : VerboseMove :=
  { color := Color.white, mfrom := "e2", mto := "e4", promotion := none, san := "e4" }

/-- An empty resolved engine result for oracles in witnesses. -/
def emptyRes : BestMoveResult :=
  { bestMove := none, ponder := none, evaluation := none, depth := none,
    pv := [], raw := [], lines := [] }

/-- Default severity thresholds (50/100/250). -/
def thDefault : Thresholds := { inaccuracy := 50, mistake := 100, blunder := 250 }

/-- C8 witness: with every pre-move engine call failing and every apply
succeeding, a two-ply loop still analyzes both plies and records the
ply-1 pre-move failure. -/
theorem claim_C8_witness :
    (analyzeLoop natEngine (fun _ => Except.error "boom") (fun _ => Except.ok emptyRes)
      thDefault 0 0 [vm1, vm1]).graph.length = 2 ∧
    ({ ply := 1, context := "pre-move", message := "boom" } : AnalysisErr) ∈
      (analyzeLoop natEngine (fun _ => Except.error "boom") (fun _ => Except.ok emptyRes)
        thDefault 0 0 [vm1, vm1]).errors := by
  have h := (claim_C8_analysis_errors natEngine (fun _ => Except.error "boom")
    (fun _ => Except.ok emptyRes) thDefault).1 [vm1, vm1] 0 0 (by decide)
  exact ⟨h.1, h.2.1 0 "boom" (by decide) rfl⟩

/-! ### Claim C10 — evaluation back-fill in `buildResult` -/

theorem buildResult_eval_of_backfill (st : StreamState) (raw : List (List String))
    (bm pd : Option String) (k : Nat) (e : Evaluation)
    (h : backfillEval st.evaluation raw = some e) :
    (buildResult st raw bm pd k).evaluation = some e := by
  simp only [buildResult, h]
  split
  · rfl
  · split <;> rfl

theorem buildResult_depth_of_backfill (st : StreamState) (raw : List (List String))
    (bm pd : Option String) (k : Nat) (d : Nat)
    (h : backfillDepth st.bestDepth raw = some d) :
    (buildResult st raw bm pd k).depth = some d := by
  simp only [buildResult, h]
  split
  · rfl
  · split <;> rfl

theorem buildResult_pv_of_backfill (st : StreamState) (raw : List (List String))
    (bm pd : Option String) (k : Nat) (l : List String) (hne : l ≠ [])
    (h : backfillPv st.pv raw = l) :
    (buildResult st raw bm pd k).pv = l := by
  simp only [buildResult, h]
  split
  · rfl
  · split
    · simp [hne]
    · rfl

theorem buildResult_raw_eq (st : StreamState) (raw : List (List String))
    (bm pd : Option String) (k : Nat) : (buildResult st raw bm pd k).raw = raw := by
  simp only [buildResult]
  split
  · rfl
  · split <;> rfl

theorem backfillEval_ne_none (stEval : Option Evaluation) (raw : List (List String))
    (h : (raw.map scoreMatches).flatten ≠ []) :
    backfillEval stEval raw ≠ none := by
  rcases stEval with _ | e
  · simp only [backfillEval]
    rcases hlast : ((raw.map scoreMatches).flatten).getLast? with _ | s
    · exact absurd (List.getLast?_eq_none_iff.mp hlast) h
    · simp
  · simp [backfillEval]

theorem buildResult_eval_ne_none (st : StreamState) (raw : List (List String))
    (bm pd : Option String) (k : Nat)
    (h : (raw.map scoreMatches).flatten ≠ []) :
    (buildResult st raw bm pd k).evaluation ≠ none := by
  rcases he : backfillEval st.evaluation raw with _ | e
  · exact absurd he (backfillEval_ne_none st.evaluation raw h)
  · rw [buildResult_eval_of_backfill st raw bm pd k e he]
    simp

theorem runGo_resolves (k : Nat) :
    ∀ (lines : List (List String)) (st : StreamState) (raw : List (List String))
      (res : BestMoveResult), runGo k st raw lines = some res →
      ∃ st2 raw2 bm pd, res = buildResult st2 raw2 bm pd k := by
  intro lines
  induction lines with
  | nil => intro st raw res h; simp [runGo] at h
  | cons l rest ih =>
    intro st raw res h
    simp only [runGo] at h
    rcases l with _ | ⟨t, tailToks⟩
    · exact ih st (raw ++ [[]]) res h
    · dsimp only at h
      by_cases hinfo : t = "info" ∧ tailToks ≠ []
      · rw [if_pos hinfo] at h
        exact ih _ _ res h
      · rw [if_neg hinfo] at h
        by_cases hbest : charsPrefix "bestmove".data t.data = true
        · rw [if_pos hbest] at h
          simp only [Option.some.injEq] at h
          exact ⟨st, raw ++ [t :: tailToks], _, _, h.symm⟩
        · rw [if_neg hbest] at h
          exact ih _ _ res h

theorem runReady_resolves (k : Nat) :
    ∀ (lines : List (List String)) (raw : List (List String))
      (res : BestMoveResult), runReady k raw lines = some res →
      ∃ st2 raw2 bm pd, res = buildResult st2 raw2 bm pd k := by
  intro lines
  induction lines with
  | nil => intro raw res h; simp [runReady] at h
  | cons l rest ih =>
    intro raw res h
    simp only [runReady] at h
    by_cases hc : lineContains l "readyok" = true
    · rw [if_pos hc] at h
      exact runGo_resolves k rest StreamState.init (raw ++ [l]) res h
    · rw [if_neg hc] at h
      exact ih _ res h

theorem runHandshake_resolves (k : Nat) :
    ∀ (lines : List (List String)) (raw : List (List String))
      (res : BestMoveResult), runHandshake k raw lines = some res →
      ∃ st2 raw2 bm pd, res = buildResult st2 raw2 bm pd k := by
  intro lines
  induction lines with
  | nil => intro raw res h; simp [runHandshake] at h
  | cons l rest ih =>
    intro raw res h
    simp only [runHandshake] at h
    by_cases hc : lineContains l "uciok" = true
    · rw [if_pos hc] at h
      exact runReady_resolves k rest (raw ++ [l]) res h
    · rw [if_neg hc] at h
      exact ih _ res h

theorem rawFindPv_ne_nil :
    ∀ (raw : List (List String)) (l : List String), rawFindPv raw = some l → l ≠ [] := by
  have aux : ∀ (toks : List String) (l : List String),
      pvTailAnywhere toks = some l → l ≠ [] := by
    intro toks
    induction toks with
    | nil => intro l h; simp [pvTailAnywhere] at h
    | cons t rest ih =>
      intro l h
      simp only [pvTailAnywhere] at h
      by_cases hc : t = "pv" ∧ rest ≠ []
      · rw [if_pos hc] at h
        simp only [Option.some.injEq] at h
        exact h ▸ hc.2
      · rw [if_neg hc] at h
        exact ih l h
  have auxRest : ∀ (raw : List (List String)) (l : List String),
      rawPvRest raw = some l → l ≠ [] := by
    intro raw
    induction raw with
    | nil => intro l h; simp [rawPvRest] at h
    | cons lraw rest ih =>
      intro l h
      simp only [rawPvRest] at h
      rcases hline : pvTailAnywhere lraw with _ | r
      · rw [hline] at h
        exact ih l h
      · rw [hline] at h
        simp only [Option.some.injEq] at h
        exact h ▸ aux lraw r hline
  intro raw l h
  rcases raw with _ | ⟨lraw, rest⟩
  · simp [rawFindPv] at h
  · simp only [rawFindPv] at h
    rcases hline : findPvTail lraw with _ | r
    · rw [hline] at h
      exact auxRest rest l h
    · rw [hline] at h
      simp only [Option.some.injEq] at h
      rcases lraw with _ | ⟨t, toks⟩
      · simp [findPvTail] at hline
      · simp only [findPvTail] at hline
        exact h ▸ aux toks r hline

/-- C10 (amended): every successful `getBestMove` call resolves through
`buildResult`, so when the accumulated raw output holds at least one
`score (cp|mate) <v>` token the resolved evaluation is non-null; a
primary evaluation that was not captured during streaming is back-filled
from the *last* score token and a missing depth from the *last* depth
token of the raw output, while an empty principal variation is
back-filled from the *first* `pv` occurrence (the non-global `/m`
match), not the last. -/
theorem claim_C10_result_backfill :
    (∀ (lines : List (List String)) (mpv : Option Int) (res : BestMoveResult),
      getBestMoveModel lines mpv = some res →
      (res.raw.map scoreMatches).flatten ≠ [] → res.evaluation ≠ none) ∧
    (∀ (st : StreamState) (raw : List (List String)) (bm pd : Option String)
       (k : Nat) (s0 : String × Int),
      st.evaluation = none → ((raw.map scoreMatches).flatten).getLast? = some s0 →
      (buildResult st raw bm pd k).evaluation = some { etype := s0.1, value := s0.2 }) ∧
    (∀ (st : StreamState) (raw : List (List String)) (bm pd : Option String)
       (k : Nat) (d0 : Nat),
      st.bestDepth = none → ((raw.map (keyNatMatches "depth")).flatten).getLast? = some d0 →
      (buildResult st raw bm pd k).depth = some d0) ∧
    (∀ (st : StreamState) (raw : List (List String)) (bm pd : Option String)
       (k : Nat) (l : List String),
      st.pv = [] → rawFindPv raw = some l →
      (buildResult st raw bm pd k).pv = l) := by
  refine ⟨?_, ?_, ?_, ?_⟩
  · intro lines mpv res hres hscore
    obtain ⟨st2, raw2, bm, pd, heq⟩ :=
      runHandshake_resolves (clampMultiPv mpv).toNat lines [] res hres
    have hraw : res.raw = raw2 := by rw [heq]; exact buildResult_raw_eq _ _ _ _ _
    rw [hraw] at hscore
    rw [heq]
    exact buildResult_eval_ne_none st2 raw2 bm pd _ hscore
  · intro st raw bm pd k s0 hst hlast
    refine buildResult_eval_of_backfill st raw bm pd k _ ?_
    simp [backfillEval, hst, hlast]
  · intro st raw bm pd k d0 hst hlast
    refine buildResult_depth_of_backfill st raw bm pd k _ ?_
    simp [backfillDepth, hst, hlast]
  · intro st raw bm pd k l hst hfind
    refine buildResult_pv_of_backfill st raw bm pd k l (rawFindPv_ne_nil raw l hfind) ?_
    simp [backfillPv, hst, hfind]

/-- The engine-output lines of the C10 counterexample session: only
multipv-2 info lines arrive, so no primary-line data is captured during
streaming. -/
def c10lines : List (List String) :=
  [["uciok"], ["readyok"],
   ["info", "multipv", "2", "score", "cp", "10", "pv", "a2a3", "b7b6"],
   ["info", "multipv", "2", "score", "cp", "20", "pv", "h2h3", "g7g6"],
   ["bestmove", "e2e4"]]

/-- C10 counterexample: in this successful session the resolved
evaluation is back-filled from the *last* score token (cp 20), but the
principal variation is back-filled from the *first* `pv` occurrence of
the raw output, not the last (`String.match` without the `g` flag), so
"depth and pv are back-filled the same way" is false for pv. -/
theorem claim_C10_counterexample :
    (getBestMoveModel c10lines (some 1)).map BestMoveResult.evaluation =
      some (some { etype := "cp", value := 20 }) ∧
    (getBestMoveModel c10lines (some 1)).map BestMoveResult.pv =
      some ["a2a3", "b7b6"] ∧
    (c10lines.filterMap findPvTail).getLast? = some ["h2h3", "g7g6"] ∧
    some (["a2a3", "b7b6"] : List String) ≠ some ["h2h3", "g7g6"] := by
  refine ⟨by decide, by decide, by decide, by decide⟩

/-- C10 witness: the back-fill theorem applied to the counterexample
session's streaming state (nothing captured) and raw output, whose last
score token is `cp 20`. -/
theorem claim_C10_witness :
    (buildResult StreamState.init c10lines (some "e2e4") none 1).evaluation =
      some { etype := "cp", value := 20 } := by
  exact (claim_C10_result_backfill).2.1 StreamState.init c10lines (some "e2e4") none 1
    ("cp", 20) rfl (by decide)

end ChessBackend
